import Mathlib

/-!
Shallow embedding of the nc-baxis-constant-surface-speed core
(`core/parser.py`, `core/config.py`, `core/rpm_model.py`, `core/injector.py`,
`core/report.py`, `core/processor.py`).

Modelling conventions:
* Python `str` / byte strings are modelled as `List Char` (the files under
  test are ASCII; the strict decode/encode round trip of the processor is
  the identity on such data, so encoding is modelled as the identity).
* Python `float` is idealised as an exact ordered field value: decimal
  literals parse to the rational they denote, and the trigonometric
  computations of `rpm_model.py` are carried out in `ℝ` with `Real.sin`.
  Python unbounded `int` is `ℤ` (counters use `ℕ`).
* `datetime.now()` (used only for the report timestamp) is modelled as an
  explicit `now` argument threaded into `process_file`.
* The injector is parameterised by the outcome function it consults
  (mirroring the `RpmModel` object handed to `Injector.__init__`); the
  production instantiation `modelOutcome` ties it to the real-sine model.
-/

namespace NcBcss

/-! ## core/parser.py -/

/-- Model of `strip_paren_comments`: drop `(`/`)` themselves and every
character at comment depth > 0; an unmatched `)` leaves depth at 0. -/
def strip_paren_comments : Nat → List Char → List Char
  | _, [] => []
  | d, '(' :: rest => strip_paren_comments (d + 1) rest
  | d, ')' :: rest => strip_paren_comments (d - 1) rest
  | d, c :: rest =>
    if d = 0 then c :: strip_paren_comments d rest else strip_paren_comments d rest

/-- Head of a character list is an ASCII digit (regex lookahead `(?!\d)` test). -/
def headIsDigit : List Char → Bool
  | [] => false
  | c :: _ => c.isDigit

/-- Model of searching `re.compile(r"M0?3(?!\d)")`: an `M`, an optional `0`,
a `3`, not followed by a digit, anywhere in the text. -/
def hasM03 : List Char → Bool
  | [] => false
  | 'M' :: '0' :: '3' :: rest => (!headIsDigit rest) || hasM03 ('0' :: '3' :: rest)
  | 'M' :: '3' :: rest => (!headIsDigit rest) || hasM03 ('3' :: rest)
  | _ :: rest => hasM03 rest

/-- Model of searching `re.compile(r"M0?5(?!\d)")`. -/
def hasM05 : List Char → Bool
  | [] => false
  | 'M' :: '0' :: '5' :: rest => (!headIsDigit rest) || hasM05 ('0' :: '5' :: rest)
  | 'M' :: '5' :: rest => (!headIsDigit rest) || hasM05 ('5' :: rest)
  | _ :: rest => hasM05 rest

/-- Numeric value of a digit run (most significant first). -/
def digitsVal (ds : List Char) : ℕ :=
  ds.foldl (fun a c => 10 * a + (c.toNat - '0'.toNat)) 0

/-- Value of a decimal literal with integer part `ip` and fraction part `fp`. -/
def decVal (ip fp : List Char) : ℚ :=
  (digitsVal ip : ℚ) + (digitsVal fp : ℚ) / 10 ^ fp.length

/-- Match the unsigned part of the `B` regex number,
`(?:\d+(?:\.\d*)?|\.\d+)`, at the start of the list. -/
def matchBNumUnsigned (sgn : ℚ) : List Char → Option ℚ
  | '.' :: t =>
    if headIsDigit t then some (sgn * decVal [] (t.takeWhile Char.isDigit)) else none
  | t =>
    if headIsDigit t then
      let ip := t.takeWhile Char.isDigit
      let r := t.dropWhile Char.isDigit
      match r with
      | '.' :: t2 => some (sgn * decVal ip (t2.takeWhile Char.isDigit))
      | _ => some (sgn * decVal ip [])
    else none

/-- Match the full `B`-number body `[+\-]?(?:\d+(?:\.\d*)?|\.\d+)` at the
start of the list (just after a `B`). -/
def matchBNum : List Char → Option ℚ
  | '+' :: t => matchBNumUnsigned 1 t
  | '-' :: t => matchBNumUnsigned (-1) t
  | t => matchBNumUnsigned 1 t

/-- Model of `RE_B.search` (first match wins; a `B` with no valid number
after it lets the search continue from the following character). -/
def findB : List Char → Option ℚ
  | [] => none
  | 'B' :: rest =>
    match matchBNum rest with
    | some v => some v
    | none => findB rest
  | _ :: rest => findB rest

/-- Model of `RE_S.search` for `S(\d+)` (first match, greedy digit run). -/
def findS : List Char → Option ℤ
  | [] => none
  | 'S' :: rest =>
    if headIsDigit rest then some (digitsVal (rest.takeWhile Char.isDigit) : ℤ)
    else findS rest
  | _ :: rest => findS rest

/-- Model of `ParsedLine`. -/
structure ParsedLine where
  has_m03 : Bool
  has_m05 : Bool
  b_deg : Option ℚ
  s_rpm : Option ℤ
deriving DecidableEq

/-- Model of `parse_line`. -/
def parse_line (line : List Char) : ParsedLine :=
  let core := strip_paren_comments 0 line
  { has_m03 := hasM03 core
    has_m05 := hasM05 core
    b_deg := findB core
    s_rpm := findS core }

/-! ## core/config.py -/

/-- Model of the `Mode` literal type. -/
inductive Mode
  | relative
  | vc_absolute
deriving DecidableEq

/-- Model of `BcssConfig` (defaults as in the source). -/
structure BcssConfig where
  tool_d_mm : ℚ := 20
  theta_ref_deg : ℚ := 12
  s_ref_rpm : ℤ := 8000
  theta_step_deg : ℚ := 1
  theta_min_deg : ℚ := 1
  s_min_rpm : ℤ := 1000
  s_max_rpm : ℤ := 20000
  s_round_unit_rpm : ℤ := 10
  deadband_rpm : ℤ := 50
  invert_b_to_theta : Bool := true
  mode : Mode := Mode.relative
  vc_m_per_min : ℚ := 0
deriving DecidableEq

/-! ## core/rpm_model.py -/

/-- Model of `floor_step`. -/
def floor_step (value step : ℚ) : ℚ :=
  if step ≤ 0 then value else ⌊value / step⌋ * step

/-- Model of `RpmDecision`, generic in the number field carrying the
idealised float values. -/
structure RpmDecision (K : Type) where
  theta_used_deg : K
  rpm_raw : K
  rpm_rounded : ℤ
  rpm_clamped : ℤ
  clamped : Bool

/-- Model of Python `round` on an exact value: round half to even. -/
def pyRound {K : Type} [LinearOrderedField K] [FloorRing K] (x : K) : ℤ :=
  let n : ℤ := ⌊x⌋
  if x - n < 1 / 2 then n
  else if 1 / 2 < x - n then n + 1
  else if Even n then n else n + 1

/-- Model of `RpmModel._postprocess`: round `rpm_raw` to the rounding unit
(unit floored at 1), then clamp into `[s_min_rpm, s_max_rpm]`, low clamp
first, flagging whether any clamp fired. -/
def postprocess {K : Type} [LinearOrderedField K] [FloorRing K]
    (cfg : BcssConfig) (theta_used : K) (rpm_raw : K) : RpmDecision K :=
  let unit : ℤ := max 1 cfg.s_round_unit_rpm
  let rpm_rounded : ℤ := pyRound (rpm_raw / (unit : K)) * unit
  let low : Bool := rpm_rounded < cfg.s_min_rpm
  let v1 : ℤ := if rpm_rounded < cfg.s_min_rpm then cfg.s_min_rpm else rpm_rounded
  let high : Bool := v1 > cfg.s_max_rpm
  let v2 : ℤ := if v1 > cfg.s_max_rpm then cfg.s_max_rpm else v1
  { theta_used_deg := theta_used
    rpm_raw := rpm_raw
    rpm_rounded := rpm_rounded
    rpm_clamped := v2
    clamped := low || high }

/-- Degrees-to-radians conversion `math.radians` applied to an (exact)
angle in degrees. -/
noncomputable def radians (theta : ℚ) : ℝ :=
  (theta : ℝ) * Real.pi / 180

/-- Model of `RpmModel._b_to_theta`: theta = 90 - b, floored at 0. -/
def b_to_theta (b : ℚ) : ℚ :=
  let t : ℚ := 90 - b
  if t < 0 then 0 else t

/-- Model of the `RpmModel.__init__` computation of `self._theta_ref_used`. -/
def theta_ref_used (cfg : BcssConfig) : ℚ :=
  if cfg.invert_b_to_theta then b_to_theta cfg.theta_ref_deg else cfg.theta_ref_deg

/-- Model of the `RpmModel.__init__` cached `self._sin_ref`. -/
noncomputable def sin_ref (cfg : BcssConfig) : ℝ :=
  Real.sin (radians (theta_ref_used cfg))

/-- Model of the epsilon guard on a sine value: a magnitude below `1e-12`
is replaced by `1e-12`. -/
noncomputable def sinGuard (x : ℝ) : ℝ :=
  if |x| < 1 / 10 ^ 12 then 1 / 10 ^ 12 else x

/-- Model of `RpmModel._compute_mode_a_relative`. -/
noncomputable def compute_mode_a_relative (cfg : BcssConfig) (theta_deg : ℚ) : RpmDecision ℝ :=
  let theta_used : ℚ := max theta_deg cfg.theta_min_deg
  let sin_theta : ℝ := sinGuard (Real.sin (radians theta_used))
  postprocess cfg ((theta_used : ℚ) : ℝ) ((cfg.s_ref_rpm : ℝ) * (sin_ref cfg / sin_theta))

/-- Model of `RpmModel._compute_mode_b_vc_absolute`. -/
noncomputable def compute_mode_b_vc_absolute (cfg : BcssConfig) (theta_deg : ℚ) : RpmDecision ℝ :=
  let theta_used : ℚ := max theta_deg cfg.theta_min_deg
  let sin_theta : ℝ := sinGuard (Real.sin (radians theta_used))
  let d0 : ℝ := (cfg.tool_d_mm : ℝ) * sin_theta
  let d_eff : ℝ := if d0 < 1 / 10 ^ 9 then 1 / 10 ^ 9 else d0
  postprocess cfg ((theta_used : ℚ) : ℝ) ((1000 * cfg.vc_m_per_min) / (Real.pi * d_eff))

/-- Model of `RpmModel.compute_s_for_theta` (mode dispatch). -/
noncomputable def compute_s_for_theta (cfg : BcssConfig) (theta_deg : ℚ) : RpmDecision ℝ :=
  if cfg.mode = Mode.vc_absolute then compute_mode_b_vc_absolute cfg theta_deg
  else compute_mode_a_relative cfg theta_deg

/-- Model of `RpmModel.should_insert` (`last_s` is the tracked
`last_s_rpm`, owned by the model object in the source). -/
def should_insert (cfg : BcssConfig) (last_s : Option ℤ) (next_rpm : ℤ) : Bool :=
  match last_s with
  | none => true
  | some l => decide (cfg.deadband_rpm ≤ |next_rpm - l|)

/-! ## core/report.py (statistics records) -/

/-- Model of `DetectStats`. -/
structure DetectStats where
  total_lines : ℕ := 0
  b_lines : ℕ := 0
  spindle_on_lines : ℕ := 0
deriving DecidableEq

/-- Model of `ChangeStats`. -/
structure ChangeStats where
  inserted_s_lines : ℕ := 0
  skipped_nextline_has_s : ℕ := 0
  skipped_deadband : ℕ := 0
  clamped_count : ℕ := 0
  theta_min_applied_count : ℕ := 0
  pending_at_eof : ℕ := 0
deriving DecidableEq

/-- Model of `SRange`. -/
structure SRange where
  s_min : Option ℤ := none
  s_max : Option ℤ := none
deriving DecidableEq

/-- Model of `SRange.update`. -/
def SRange.update (r : SRange) (s : ℤ) : SRange :=
  let mn : Option ℤ :=
    match r.s_min with
    | none => some s
    | some m => if s < m then some s else some m
  let mx : Option ℤ :=
    match r.s_max with
    | none => some s
    | some m => if s > m then some s else some m
  { s_min := mn, s_max := mx }

/-! ## core/injector.py

The quantities the injector reads off an `RpmDecision` are its
`theta_used_deg`, `rpm_clamped` and `clamped` fields; `RpmOutcome`
packages exactly those (with the angle kept in `ℚ`, which is exact for
`theta_used = max theta_deg theta_min_deg` — see
`compute_s_for_theta_theta_used`). The injector is parameterised by the
outcome function, mirroring the `rpm_model` object it is handed; the
`last_s_rpm` cell of that object is carried in `InjState.last_s`.
-/

/-- The fields of an `RpmDecision` the injector consumes. -/
structure RpmOutcome where
  theta_used_deg : ℚ
  rpm_clamped : ℤ
  clamped : Bool
deriving DecidableEq

/-- Production outcome function: the real-sine RPM model of
`rpm_model.py` restricted to the fields the injector reads. -/
noncomputable def modelOutcome (cfg : BcssConfig) (theta_deg : ℚ) : RpmOutcome :=
  let d := compute_s_for_theta cfg theta_deg
  { theta_used_deg := max theta_deg cfg.theta_min_deg
    rpm_clamped := d.rpm_clamped
    clamped := d.clamped }

/-- Model of the mutable state of one `Injector` (plus the `last_s_rpm`
cell of its `RpmModel`): `pending` holds the `theta_quant_deg` of the
single `PendingInsert` slot, and the three statistics records are the
parts of the shared `Report` the injector mutates. -/
structure InjState where
  spindle_on : Bool := false
  last_theta_quant : Option ℚ := none
  pending : Option ℚ := none
  last_s : Option ℤ := none
  detect : DetectStats := {}
  changes : ChangeStats := {}
  s_range : SRange := {}
deriving DecidableEq

/-- The initial injector state (`Injector.__init__` plus a fresh
`RpmModel`/`Report`). -/
def initState : InjState := {}

/-- Model of `Injector._set_spindle_state` (M03 applied before M05, and a
stop clears the last-S memory). -/
def set_spindle_state (s : InjState) (parsed : ParsedLine) : InjState :=
  let s1 := if parsed.has_m03 then { s with spindle_on := true } else s
  if parsed.has_m05 then { s1 with spindle_on := false, last_s := none } else s1

/-- Model of the pending-resolution block of `Injector.process_line`
(lines 50-75 of the source): resolves the pending insertion against the
current line, returning the new state and the inserted line, if any.
When the spindle is off the pending slot is left untouched (the source
only enters the block when `self.spindle_on`). -/
def resolvePending (cfg : BcssConfig) (compute : ℚ → RpmOutcome)
    (s : InjState) (parsed : ParsedLine) (nl : List Char) :
    InjState × Option (List Char) :=
  match s.pending with
  | none => (s, none)
  | some theta_q =>
    if s.spindle_on then
      if parsed.s_rpm.isSome then
        ({ s with pending := none
                  changes := { s.changes with
                    skipped_nextline_has_s := s.changes.skipped_nextline_has_s + 1 } },
         none)
      else
        let dec := compute theta_q
        let s1 :=
          if theta_q < dec.theta_used_deg then
            { s with changes := { s.changes with
                theta_min_applied_count := s.changes.theta_min_applied_count + 1 } }
          else s
        let s2 :=
          if dec.clamped then
            { s1 with changes := { s1.changes with
                clamped_count := s1.changes.clamped_count + 1 } }
          else s1
        if should_insert cfg s2.last_s dec.rpm_clamped then
          ({ s2 with pending := none
                     last_s := some dec.rpm_clamped
                     s_range := s2.s_range.update dec.rpm_clamped
                     changes := { s2.changes with
                       inserted_s_lines := s2.changes.inserted_s_lines + 1 } },
           some ('S' :: (toString dec.rpm_clamped).toList ++ nl))
        else
          ({ s2 with pending := none
                     changes := { s2.changes with
                       skipped_deadband := s2.changes.skipped_deadband + 1 } },
           none)
    else (s, none)

/-- Model of the B-to-theta conversion inlined in `Injector.process_line`
(lines 92-96 of the source): theta = 90 - b floored at 0 when the
inversion flag is on, otherwise b itself. -/
def convert_b (cfg : BcssConfig) (b : ℚ) : ℚ :=
  if cfg.invert_b_to_theta then
    let t : ℚ := 90 - b
    if t < 0 then 0 else t
  else b

/-- Model of `RpmModel.quantize_theta` (floor quantization). -/
def quantize_theta (cfg : BcssConfig) (theta : ℚ) : ℚ :=
  floor_step theta cfg.theta_step_deg

/-- Model of the B-scheduling block of `Injector.process_line`
(lines 89-103 of the source). -/
def scheduleB (cfg : BcssConfig) (s : InjState) (parsed : ParsedLine) : InjState :=
  match parsed.b_deg with
  | none => s
  | some b =>
    if s.spindle_on then
      let s1 := { s with detect := { s.detect with b_lines := s.detect.b_lines + 1 } }
      let theta_q : ℚ := quantize_theta cfg (convert_b cfg b)
      let s2 :=
        if s1.last_theta_quant = none ∨ some theta_q ≠ s1.last_theta_quant then
          { s1 with pending := some theta_q }
        else s1
      { s2 with last_theta_quant := some theta_q }
    else s

/-- The `spindle_on_lines` detection counter bump of
`Injector.process_line` (lines 80-81 of the source). -/
def bumpOnLines (s : InjState) : InjState :=
  if s.spindle_on then
    { s with detect := { s.detect with spindle_on_lines := s.detect.spindle_on_lines + 1 } }
  else s

/-- The explicit-S adoption block of `Injector.process_line`
(lines 84-86 of the source). -/
def adoptS (s : InjState) (parsed : ParsedLine) : InjState :=
  if s.spindle_on then
    match parsed.s_rpm with
    | some n => { s with last_s := some n, s_range := s.s_range.update n }
    | none => s
  else s

/-- The `total_lines` detection counter bump of `Injector.process_line`
(line 47 of the source). -/
def bumpTotal (s : InjState) : InjState :=
  { s with detect := { s.detect with total_lines := s.detect.total_lines + 1 } }

/-- Model of `Injector.process_line`: returns the new state and the
optional inserted line (the unmodified current line is emitted by the
processor as `body ++ nl`). -/
def process_line (cfg : BcssConfig) (compute : ℚ → RpmOutcome)
    (s : InjState) (raw_text nl : List Char) : InjState × Option (List Char) :=
  let parsed := parse_line raw_text
  let r := resolvePending cfg compute (bumpTotal s) parsed nl
  (scheduleB cfg (adoptS (bumpOnLines (set_spindle_state r.1 parsed)) parsed) parsed, r.2)

/-- Model of `Injector.finalize`. -/
def finalize (s : InjState) : InjState :=
  match s.pending with
  | none => s
  | some _ =>
    { s with pending := none
             changes := { s.changes with pending_at_eof := s.changes.pending_at_eof + 1 } }

/-! ## core/processor.py -/

/-- Model of the newline-detection half of `_detect_encoding_and_newline`
on the first-65536-byte sample (the encoding half is the identity under
the ASCII idealisation). -/
def containsCRLF : List Char → Bool
  | '\r' :: '\n' :: _ => true
  | _ :: rest => containsCRLF rest
  | [] => false

/-- Detected file-level newline: CRLF if the sample contains one,
otherwise LF (both `elif` and `else` branches of the source yield LF). -/
def detectNewline (sample : List Char) : List Char :=
  if containsCRLF sample then ['\r', '\n'] else ['\n']

/-- Model of `fin.readline()` iteration: split a byte stream into lines,
each keeping its own trailing LF; a final chunk without LF is a line too. -/
def splitLinesKeepEnds (acc : List Char) : List Char → List (List Char)
  | [] => if acc = [] then [] else [acc.reverse]
  | c :: rest =>
    if c = '\n' then (acc.reverse ++ ['\n']) :: splitLinesKeepEnds [] rest
    else splitLinesKeepEnds (c :: acc) rest

/-- A line ends with an LF byte (so it carries its own terminator). -/
def endsLF (l : List Char) : Bool :=
  match l.reverse with
  | [] => false
  | c :: _ => c = '\n'

/-- Model of the per-line terminator split (lines 70-78 of
`processor.py`): peel the line's own CRLF or LF; a terminator-less line
gets the detected file-level newline. -/
def splitEOL (line detected : List Char) : List Char × List Char :=
  match line.reverse with
  | [] => (line, detected)
  | c :: t =>
    if c = '\n' then
      match t with
      | [] => (t.reverse, ['\n'])
      | d :: t2 => if d = '\r' then (t2.reverse, ['\r', '\n']) else (t.reverse, ['\n'])
    else (line, detected)

/-- Result of the read-process-write loop: final injector state, output
byte stream, and the per-line inserted chunks (in line order). -/
structure RunResult where
  state : InjState
  output : List Char
  inserted : List (Option (List Char))
deriving DecidableEq

/-- The read-process-write loop of `process_file`: runs the injector over
the split lines; each iteration writes the inserted line, if any,
immediately before the current line's bytes. -/
def runLines (cfg : BcssConfig) (compute : ℚ → RpmOutcome) (detected : List Char) :
    InjState → List (List Char) → RunResult
  | s, [] => { state := s, output := [], inserted := [] }
  | s, l :: ls =>
    let p := splitEOL l detected
    let r := process_line cfg compute s p.1 p.2
    let rest := runLines cfg compute detected r.1 ls
    { state := rest.state
      output := (r.2.getD []) ++ (p.1 ++ p.2) ++ rest.output
      inserted := r.2 :: rest.inserted }

/-- Model of `Report` (the `config` echo keeps the structured value; the
`processed_at` timestamp is the `now` argument of `process_file`). -/
structure Report where
  input_file : List Char
  output_file : List Char
  report_file : List Char
  processed_at : List Char
  config : BcssConfig
  detect : DetectStats
  changes : ChangeStats
  s_range : SRange
deriving DecidableEq

/-- Model of `process_file`: the resolved input/output/report paths are
taken as arguments (their computation in `_make_output_paths` is pure
string manipulation of the input path), `now` models the
`Report.now_iso()` clock read, and `input` is the input file's bytes.
Returns the output file's bytes and the final report. -/
def process_file (cfg : BcssConfig) (compute : ℚ → RpmOutcome)
    (input_path output_path report_path now : List Char)
    (input : List Char) : List Char × Report :=
  let detected := detectNewline (input.take 65536)
  let lines := splitLinesKeepEnds [] input
  let r := runLines cfg compute detected initState lines
  let sFin := finalize r.state
  (r.output,
   { input_file := input_path
     output_file := output_path
     report_file := report_path
     processed_at := now
     config := cfg
     detect := sFin.detect
     changes := sFin.changes
     s_range := sFin.s_range })

/-- Production instantiation of `process_file`, tied to the real-sine
RPM model built from the same configuration (as in the source, which
constructs `RpmModel(cfg)` and hands it to the `Injector`). -/
noncomputable def process_file_model (cfg : BcssConfig)
    (input_path output_path report_path now : List Char)
    (input : List Char) : List Char × Report :=
  process_file cfg (modelOutcome cfg) input_path output_path report_path now input

/-! ## Report serialization (report bytes written by `process_file`)

The report file contains `json.dumps(report.to_dict(), ...)`. The JSON
rendering below follows the fixed key order of `Report.to_dict` and
`dataclasses.asdict`; number rendering of the idealised floats is via
`fmtQ` (exact rationals in place of Python float repr) — an idealisation
that does not affect which runs produce equal report bytes.
-/

/-- Render an optional integer as JSON (`null` for `None`). -/
def jsonOptInt : Option ℤ → List Char
  | none => "null".toList
  | some n => (toString n).toList

/-- Render a rational (idealised float) as a JSON number token. -/
def fmtQ (q : ℚ) : List Char :=
  (toString q.num).toList ++ (if q.den = 1 then [] else '/' :: (toString q.den).toList)

/-- Render a JSON string literal (escaping not modelled; paths and
timestamps here contain no characters needing escapes). -/
def jsonStr (s : List Char) : List Char :=
  '\x22' :: s ++ ['\x22']

/-- Model of the serialized report written by `process_file` (key order
of `Report.to_dict` / `asdict`, flattened whitespace). -/
def jsonOfReport (r : Report) : List Char :=
  "\x7b\x22input_file\x22: ".toList ++ jsonStr r.input_file ++
  ", \x22output_file\x22: ".toList ++ jsonStr r.output_file ++
  ", \x22report_file\x22: ".toList ++ jsonStr r.report_file ++
  ", \x22processed_at\x22: ".toList ++ jsonStr r.processed_at ++
  ", \x22config\x22: \x7b\x22tool_d_mm\x22: ".toList ++ fmtQ r.config.tool_d_mm ++
  ", \x22theta_ref_deg\x22: ".toList ++ fmtQ r.config.theta_ref_deg ++
  ", \x22s_ref_rpm\x22: ".toList ++ (toString r.config.s_ref_rpm).toList ++
  ", \x22theta_step_deg\x22: ".toList ++ fmtQ r.config.theta_step_deg ++
  ", \x22theta_min_deg\x22: ".toList ++ fmtQ r.config.theta_min_deg ++
  ", \x22s_min_rpm\x22: ".toList ++ (toString r.config.s_min_rpm).toList ++
  ", \x22s_max_rpm\x22: ".toList ++ (toString r.config.s_max_rpm).toList ++
  ", \x22s_round_unit_rpm\x22: ".toList ++ (toString r.config.s_round_unit_rpm).toList ++
  ", \x22deadband_rpm\x22: ".toList ++ (toString r.config.deadband_rpm).toList ++
  ", \x22invert_b_to_theta\x22: ".toList ++ (toString r.config.invert_b_to_theta).toList ++
  ", \x22mode\x22: ".toList ++
    (if r.config.mode = Mode.vc_absolute then "\x22vc_absolute\x22" else "\x22relative\x22").toList ++
  ", \x22vc_m_per_min\x22: ".toList ++ fmtQ r.config.vc_m_per_min ++
  "\x7d, \x22detect\x22: \x7b\x22total_lines\x22: ".toList ++ (toString r.detect.total_lines).toList ++
  ", \x22b_lines\x22: ".toList ++ (toString r.detect.b_lines).toList ++
  ", \x22spindle_on_lines\x22: ".toList ++ (toString r.detect.spindle_on_lines).toList ++
  "\x7d, \x22changes\x22: \x7b\x22inserted_s_lines\x22: ".toList ++ (toString r.changes.inserted_s_lines).toList ++
  ", \x22skipped_nextline_has_s\x22: ".toList ++ (toString r.changes.skipped_nextline_has_s).toList ++
  ", \x22skipped_deadband\x22: ".toList ++ (toString r.changes.skipped_deadband).toList ++
  ", \x22clamped_count\x22: ".toList ++ (toString r.changes.clamped_count).toList ++
  ", \x22theta_min_applied_count\x22: ".toList ++ (toString r.changes.theta_min_applied_count).toList ++
  ", \x22pending_at_eof\x22: ".toList ++ (toString r.changes.pending_at_eof).toList ++
  "\x7d, \x22s_range\x22: \x7b\x22s_min\x22: ".toList ++ jsonOptInt r.s_range.s_min ++
  ", \x22s_max\x22: ".toList ++ jsonOptInt r.s_range.s_max ++
  "\x7d\x7d".toList

/-! ## Concrete configurations and inputs used by the claims -/

/-- Configuration of the concrete relative-mode scenario: defaults with
angle inversion off (reference angle 12 deg, 8000 rpm, step 1 deg,
minimum angle 1 deg, rounding 10, deadband 50, clamp 1000..20000). -/
def cfgC5 : BcssConfig := { invert_b_to_theta := false }

/-- The ten input lines of the concrete scenario, LF-terminated. -/
def inputC5 : List Char :=
  ("G97S8000M03\nX0Y0B12.3\nG1X1\nX0Y0B12.8\nG1X2\n" ++
   "X0Y0B13.1\nG1X3\nM05\nX0Y0B14.0\nG1X4\n").toList

/-- Configuration refuting the reference-angle-flooring claim: baseline
angle 0 (below the safety minimum 1), inversion off, relative mode. -/
def cfgRefZero : BcssConfig := { theta_ref_deg := 0, invert_b_to_theta := false }

/-- Configuration refuting the raw-speed clamping claim: maximum speed
20003, not a multiple of the rounding unit 10. -/
def cfgMax3 : BcssConfig := { s_max_rpm := 20003 }

/-! ## Structural lemmas on the injector steps -/

theorem bumpTotal_spindle (s : InjState) : (bumpTotal s).spindle_on = s.spindle_on := rfl

theorem bumpTotal_pending (s : InjState) : (bumpTotal s).pending = s.pending := rfl

theorem bumpTotal_changes (s : InjState) : (bumpTotal s).changes = s.changes := rfl

theorem bumpTotal_last_s (s : InjState) : (bumpTotal s).last_s = s.last_s := rfl

theorem bumpTotal_last_theta (s : InjState) :
    (bumpTotal s).last_theta_quant = s.last_theta_quant := rfl

theorem bumpOnLines_spindle (s : InjState) : (bumpOnLines s).spindle_on = s.spindle_on := by
  unfold bumpOnLines; split <;> rfl

theorem bumpOnLines_pending (s : InjState) : (bumpOnLines s).pending = s.pending := by
  unfold bumpOnLines; split <;> rfl

theorem bumpOnLines_changes (s : InjState) : (bumpOnLines s).changes = s.changes := by
  unfold bumpOnLines; split <;> rfl

theorem bumpOnLines_last_s (s : InjState) : (bumpOnLines s).last_s = s.last_s := by
  unfold bumpOnLines; split <;> rfl

theorem bumpOnLines_last_theta (s : InjState) :
    (bumpOnLines s).last_theta_quant = s.last_theta_quant := by
  unfold bumpOnLines; split <;> rfl

theorem adoptS_spindle (s : InjState) (p : ParsedLine) :
    (adoptS s p).spindle_on = s.spindle_on := by
  unfold adoptS; split
  · cases p.s_rpm <;> rfl
  · rfl

theorem adoptS_pending (s : InjState) (p : ParsedLine) :
    (adoptS s p).pending = s.pending := by
  unfold adoptS; split
  · cases p.s_rpm <;> rfl
  · rfl

theorem adoptS_changes (s : InjState) (p : ParsedLine) :
    (adoptS s p).changes = s.changes := by
  unfold adoptS; split
  · cases p.s_rpm <;> rfl
  · rfl

theorem adoptS_last_theta (s : InjState) (p : ParsedLine) :
    (adoptS s p).last_theta_quant = s.last_theta_quant := by
  unfold adoptS; split
  · cases p.s_rpm <;> rfl
  · rfl

theorem set_spindle_state_eq (s : InjState) (p : ParsedLine) :
    set_spindle_state s p =
      { s with
        spindle_on := if p.has_m05 then false else if p.has_m03 then true else s.spindle_on
        last_s := if p.has_m05 then none else s.last_s } := by
  cases h3 : p.has_m03 <;> cases h5 : p.has_m05 <;> simp [set_spindle_state, h3, h5]

theorem set_spindle_state_pending (s : InjState) (p : ParsedLine) :
    (set_spindle_state s p).pending = s.pending := by
  rw [set_spindle_state_eq]

theorem set_spindle_state_changes (s : InjState) (p : ParsedLine) :
    (set_spindle_state s p).changes = s.changes := by
  rw [set_spindle_state_eq]

theorem set_spindle_state_last_theta (s : InjState) (p : ParsedLine) :
    (set_spindle_state s p).last_theta_quant = s.last_theta_quant := by
  rw [set_spindle_state_eq]

theorem scheduleB_spindle (cfg : BcssConfig) (s : InjState) (p : ParsedLine) :
    (scheduleB cfg s p).spindle_on = s.spindle_on := by
  unfold scheduleB
  cases hb : p.b_deg <;> dsimp only <;> first | rfl | (split_ifs <;> rfl)

theorem scheduleB_changes (cfg : BcssConfig) (s : InjState) (p : ParsedLine) :
    (scheduleB cfg s p).changes = s.changes := by
  unfold scheduleB
  cases hb : p.b_deg <;> dsimp only <;> first | rfl | (split_ifs <;> rfl)

theorem scheduleB_last_s (cfg : BcssConfig) (s : InjState) (p : ParsedLine) :
    (scheduleB cfg s p).last_s = s.last_s := by
  unfold scheduleB
  cases hb : p.b_deg <;> dsimp only <;> first | rfl | (split_ifs <;> rfl)

theorem scheduleB_no_b (cfg : BcssConfig) (s : InjState) (p : ParsedLine)
    (hb : p.b_deg = none) : scheduleB cfg s p = s := by
  unfold scheduleB; rw [hb]

theorem scheduleB_off (cfg : BcssConfig) (s : InjState) (p : ParsedLine)
    (hs : s.spindle_on = false) : scheduleB cfg s p = s := by
  unfold scheduleB
  cases hb : p.b_deg
  · rfl
  · rw [hs]; simp

theorem scheduleB_pending_on (cfg : BcssConfig) (s : InjState) (p : ParsedLine)
    (h : s.pending = none) :
    (scheduleB cfg s p).pending.isSome = true → s.spindle_on = true := by
  unfold scheduleB
  cases hb : p.b_deg
  · simp [h]
  · cases hs : s.spindle_on
    · simp [h]
    · simp

theorem scheduleB_same_quant (cfg : BcssConfig) (s : InjState) (p : ParsedLine) (b : ℚ)
    (hb : p.b_deg = some b)
    (hq : s.last_theta_quant = some (quantize_theta cfg (convert_b cfg b))) :
    (scheduleB cfg s p).pending = s.pending := by
  unfold scheduleB
  rw [hb]
  cases hs : s.spindle_on
  · simp
  · simp [hq]

theorem resolvePending_none (cfg : BcssConfig) (f : ℚ → RpmOutcome)
    (s : InjState) (p : ParsedLine) (nl : List Char) (h : s.pending = none) :
    resolvePending cfg f s p nl = (s, none) := by
  unfold resolvePending
  rw [h]

theorem resolvePending_off (cfg : BcssConfig) (f : ℚ → RpmOutcome)
    (s : InjState) (p : ParsedLine) (nl : List Char) (h : s.spindle_on = false) :
    resolvePending cfg f s p nl = (s, none) := by
  unfold resolvePending
  cases hp : s.pending <;> dsimp only <;> simp [h]

theorem resolvePending_spindle (cfg : BcssConfig) (f : ℚ → RpmOutcome)
    (s : InjState) (p : ParsedLine) (nl : List Char) :
    (resolvePending cfg f s p nl).1.spindle_on = s.spindle_on := by
  unfold resolvePending
  cases hp : s.pending <;> dsimp only <;> first | rfl | (split_ifs <;> rfl)

theorem resolvePending_last_theta (cfg : BcssConfig) (f : ℚ → RpmOutcome)
    (s : InjState) (p : ParsedLine) (nl : List Char) :
    (resolvePending cfg f s p nl).1.last_theta_quant = s.last_theta_quant := by
  unfold resolvePending
  cases hp : s.pending <;> dsimp only <;> first | rfl | (split_ifs <;> rfl)

theorem resolvePending_detect (cfg : BcssConfig) (f : ℚ → RpmOutcome)
    (s : InjState) (p : ParsedLine) (nl : List Char) :
    (resolvePending cfg f s p nl).1.detect = s.detect := by
  unfold resolvePending
  cases hp : s.pending <;> dsimp only <;> first | rfl | (split_ifs <;> rfl)

theorem resolvePending_pending_out (cfg : BcssConfig) (f : ℚ → RpmOutcome)
    (s : InjState) (p : ParsedLine) (nl : List Char)
    (h : s.spindle_on = true ∨ s.pending = none) :
    (resolvePending cfg f s p nl).1.pending = none := by
  cases hp : s.pending
  · rw [resolvePending_none cfg f s p nl hp]; exact hp
  · rcases h with h | h
    · simp only [resolvePending, hp, h]
      split_ifs <;> rfl
    · rw [hp] at h; cases h

theorem resolvePending_inserted_le (cfg : BcssConfig) (f : ℚ → RpmOutcome)
    (s : InjState) (p : ParsedLine) (nl : List Char) :
    (resolvePending cfg f s p nl).1.changes.inserted_s_lines ≤
      s.changes.inserted_s_lines + 1 := by
  cases hp : s.pending
  · rw [resolvePending_none cfg f s p nl hp]; exact Nat.le_succ _
  · simp only [resolvePending, hp]
    split_ifs <;> simp

theorem process_line_fst (cfg : BcssConfig) (f : ℚ → RpmOutcome)
    (s : InjState) (raw nl : List Char) :
    (process_line cfg f s raw nl).1 =
      scheduleB cfg (adoptS (bumpOnLines (set_spindle_state
        (resolvePending cfg f (bumpTotal s) (parse_line raw) nl).1 (parse_line raw)))
        (parse_line raw)) (parse_line raw) := rfl

theorem process_line_snd (cfg : BcssConfig) (f : ℚ → RpmOutcome)
    (s : InjState) (raw nl : List Char) :
    (process_line cfg f s raw nl).2 =
      (resolvePending cfg f (bumpTotal s) (parse_line raw) nl).2 := rfl

theorem process_line_no_pending (cfg : BcssConfig) (f : ℚ → RpmOutcome)
    (s : InjState) (raw nl : List Char) (hpend : s.pending = none) :
    (process_line cfg f s raw nl).2 = none ∧
    (process_line cfg f s raw nl).1.changes = s.changes := by
  have hr := resolvePending_none cfg f (bumpTotal s) (parse_line raw) nl
    (by rw [bumpTotal_pending]; exact hpend)
  constructor
  · rw [process_line_snd, hr]
  · rw [process_line_fst, scheduleB_changes, adoptS_changes, bumpOnLines_changes,
      set_spindle_state_changes, hr, bumpTotal_changes]

theorem process_line_pending_none (cfg : BcssConfig) (f : ℚ → RpmOutcome)
    (s : InjState) (raw nl : List Char)
    (hinv : s.pending = none ∨ s.spindle_on = true)
    (hb : (parse_line raw).b_deg = none) :
    (process_line cfg f s raw nl).1.pending = none := by
  rw [process_line_fst, scheduleB_no_b _ _ _ hb, adoptS_pending, bumpOnLines_pending,
    set_spindle_state_pending]
  refine resolvePending_pending_out _ _ _ _ _ ?_
  rcases hinv with h | h
  · exact Or.inr (by rw [bumpTotal_pending]; exact h)
  · exact Or.inl (by rw [bumpTotal_spindle]; exact h)

theorem process_line_off (cfg : BcssConfig) (f : ℚ → RpmOutcome)
    (s : InjState) (raw nl : List Char)
    (hs : s.spindle_on = false) (hpend : s.pending = none)
    (hm : (parse_line raw).has_m03 = false) :
    (process_line cfg f s raw nl).2 = none ∧
    (process_line cfg f s raw nl).1.spindle_on = false ∧
    (process_line cfg f s raw nl).1.pending = none ∧
    (process_line cfg f s raw nl).1.changes = s.changes := by
  have hr := resolvePending_none cfg f (bumpTotal s) (parse_line raw) nl
    (by rw [bumpTotal_pending]; exact hpend)
  have hsp : (adoptS (bumpOnLines (set_spindle_state
      (resolvePending cfg f (bumpTotal s) (parse_line raw) nl).1 (parse_line raw)))
      (parse_line raw)).spindle_on = false := by
    rw [adoptS_spindle, bumpOnLines_spindle, set_spindle_state_eq]
    show (if (parse_line raw).has_m05 then false
      else if (parse_line raw).has_m03 then true
      else (resolvePending cfg f (bumpTotal s) (parse_line raw) nl).1.spindle_on) = false
    rw [hm, hr, bumpTotal_spindle]
    cases h5 : (parse_line raw).has_m05 <;> simp [hs]
  refine ⟨by rw [process_line_snd, hr], ?_, ?_, ?_⟩
  · rw [process_line_fst, scheduleB_spindle]; exact hsp
  · rw [process_line_fst, scheduleB_off _ _ _ hsp, adoptS_pending, bumpOnLines_pending,
      set_spindle_state_pending, hr, bumpTotal_pending]; exact hpend
  · rw [process_line_fst, scheduleB_changes, adoptS_changes, bumpOnLines_changes,
      set_spindle_state_changes, hr, bumpTotal_changes]

theorem process_line_m05 (cfg : BcssConfig) (f : ℚ → RpmOutcome)
    (s : InjState) (raw nl : List Char)
    (hinv : s.pending = none ∨ s.spindle_on = true)
    (hm5 : (parse_line raw).has_m05 = true) :
    (process_line cfg f s raw nl).1.spindle_on = false ∧
    (process_line cfg f s raw nl).1.pending = none := by
  have hrp : (resolvePending cfg f (bumpTotal s) (parse_line raw) nl).1.pending = none := by
    refine resolvePending_pending_out _ _ _ _ _ ?_
    rcases hinv with h | h
    · exact Or.inr (by rw [bumpTotal_pending]; exact h)
    · exact Or.inl (by rw [bumpTotal_spindle]; exact h)
  have hsp : (adoptS (bumpOnLines (set_spindle_state
      (resolvePending cfg f (bumpTotal s) (parse_line raw) nl).1 (parse_line raw)))
      (parse_line raw)).spindle_on = false := by
    rw [adoptS_spindle, bumpOnLines_spindle, set_spindle_state_eq]
    show (if (parse_line raw).has_m05 then false
      else if (parse_line raw).has_m03 then true
      else (resolvePending cfg f (bumpTotal s) (parse_line raw) nl).1.spindle_on) = false
    rw [hm5]
    simp
  constructor
  · rw [process_line_fst, scheduleB_spindle]; exact hsp
  · rw [process_line_fst, scheduleB_off _ _ _ hsp, adoptS_pending, bumpOnLines_pending,
      set_spindle_state_pending]; exact hrp

theorem process_line_inv (cfg : BcssConfig) (f : ℚ → RpmOutcome)
    (s : InjState) (raw nl : List Char)
    (hinv : s.pending = none ∨ s.spindle_on = true) :
    (process_line cfg f s raw nl).1.pending = none ∨
    (process_line cfg f s raw nl).1.spindle_on = true := by
  have hup : (adoptS (bumpOnLines (set_spindle_state
      (resolvePending cfg f (bumpTotal s) (parse_line raw) nl).1 (parse_line raw)))
      (parse_line raw)).pending = none := by
    rw [adoptS_pending, bumpOnLines_pending, set_spindle_state_pending]
    refine resolvePending_pending_out _ _ _ _ _ ?_
    rcases hinv with h | h
    · exact Or.inr (by rw [bumpTotal_pending]; exact h)
    · exact Or.inl (by rw [bumpTotal_spindle]; exact h)
  rw [process_line_fst]
  cases hfp : (scheduleB cfg (adoptS (bumpOnLines (set_spindle_state
      (resolvePending cfg f (bumpTotal s) (parse_line raw) nl).1 (parse_line raw)))
      (parse_line raw)) (parse_line raw)).pending with
  | none => exact Or.inl rfl
  | some q =>
    right
    rw [scheduleB_spindle]
    exact scheduleB_pending_on _ _ _ hup (by rw [hfp]; rfl)

theorem process_line_inserted_le (cfg : BcssConfig) (f : ℚ → RpmOutcome)
    (s : InjState) (raw nl : List Char) :
    (process_line cfg f s raw nl).1.changes.inserted_s_lines ≤
      s.changes.inserted_s_lines + 1 := by
  rw [process_line_fst, scheduleB_changes, adoptS_changes, bumpOnLines_changes,
    set_spindle_state_changes]
  have := resolvePending_inserted_le cfg f (bumpTotal s) (parse_line raw) nl
  rw [bumpTotal_changes] at this
  exact this

/-! ## Lemmas on pyRound -/

theorem pyRound_intCast {K : Type} [LinearOrderedField K] [FloorRing K] (n : ℤ) :
    pyRound ((n : K)) = n := by
  unfold pyRound
  rw [Int.floor_intCast]
  norm_num

theorem floor_le_pyRound {K : Type} [LinearOrderedField K] [FloorRing K] (x : K) :
    ⌊x⌋ ≤ pyRound x := by
  simp only [pyRound]
  split_ifs <;> omega

theorem pyRound_le_floor_add_one {K : Type} [LinearOrderedField K] [FloorRing K] (x : K) :
    pyRound x ≤ ⌊x⌋ + 1 := by
  simp only [pyRound]
  split_ifs <;> omega

/-! ## Lemmas on line splitting -/

theorem join_splitLines : ∀ (cs acc : List Char),
    (splitLinesKeepEnds acc cs).foldr (· ++ ·) [] = acc.reverse ++ cs := by
  intro cs
  induction cs with
  | nil =>
    intro acc
    by_cases h : acc = [] <;> simp [splitLinesKeepEnds, h]
  | cons c rest ih =>
    intro acc
    by_cases hc : c = '\n'
    · subst hc
      simp [splitLinesKeepEnds, ih]
    · simp [splitLinesKeepEnds, hc, ih]

theorem splitEOL_append_lf (b det : List Char) :
    (splitEOL (b ++ ['\n']) det).1 ++ (splitEOL (b ++ ['\n']) det).2 = b ++ ['\n'] := by
  have hrev : (b ++ ['\n']).reverse = '\n' :: b.reverse := by simp
  unfold splitEOL
  split
  next heq => rw [hrev] at heq; cases heq
  next c t heq =>
    rw [hrev] at heq
    injection heq with hc ht
    subst hc
    subst ht
    rw [if_pos rfl]
    split
    next heq2 =>
      have hbnil : b = [] := by simpa using congrArg List.reverse heq2
      subst hbnil
      simp
    next d t2 heq2 =>
      have hbe : b = t2.reverse ++ [d] := by
        have h2 := congrArg List.reverse heq2
        simpa using h2
      by_cases hd : d = '\r'
      · subst hd
        rw [if_pos rfl]
        rw [hbe]
        simp
      · rw [if_neg hd]
        simp

theorem endsLF_decomp (l : List Char) (h : endsLF l = true) : ∃ b, l = b ++ ['\n'] := by
  unfold endsLF at h
  cases hr : l.reverse with
  | nil => rw [hr] at h; cases h
  | cons c t =>
    rw [hr] at h
    have hc : c = '\n' := by simpa using h
    subst hc
    refine ⟨t.reverse, ?_⟩
    have h2 := congrArg List.reverse hr
    simpa using h2

/-! ## Run-level lemmas -/

theorem runLines_nil (cfg : BcssConfig) (f : ℚ → RpmOutcome) (det : List Char)
    (s : InjState) :
    runLines cfg f det s [] = { state := s, output := [], inserted := [] } := rfl

theorem runLines_cons (cfg : BcssConfig) (f : ℚ → RpmOutcome) (det : List Char)
    (s : InjState) (l : List Char) (ls : List (List Char)) :
    runLines cfg f det s (l :: ls) =
      { state := (runLines cfg f det
          (process_line cfg f s (splitEOL l det).1 (splitEOL l det).2).1 ls).state
        output := ((process_line cfg f s (splitEOL l det).1 (splitEOL l det).2).2.getD []) ++
          ((splitEOL l det).1 ++ (splitEOL l det).2) ++
          (runLines cfg f det
            (process_line cfg f s (splitEOL l det).1 (splitEOL l det).2).1 ls).output
        inserted := (process_line cfg f s (splitEOL l det).1 (splitEOL l det).2).2 ::
          (runLines cfg f det
            (process_line cfg f s (splitEOL l det).1 (splitEOL l det).2).1 ls).inserted } := rfl

theorem runLines_inv (cfg : BcssConfig) (f : ℚ → RpmOutcome) (det : List Char) :
    ∀ (ls : List (List Char)) (s : InjState),
    (s.pending = none ∨ s.spindle_on = true) →
    ((runLines cfg f det s ls).state.pending = none ∨
      (runLines cfg f det s ls).state.spindle_on = true) := by
  intro ls
  induction ls with
  | nil => intro s h; rw [runLines_nil]; exact h
  | cons l rest ih =>
    intro s h
    rw [runLines_cons]
    exact ih _ (process_line_inv cfg f s _ _ h)

theorem runLines_no_b (cfg : BcssConfig) (f : ℚ → RpmOutcome) (det : List Char) :
    ∀ (ls : List (List Char)) (s : InjState),
    (∀ l ∈ ls, (parse_line (splitEOL l det).1).b_deg = none) →
    (∀ l ∈ ls, endsLF l = true) →
    s.pending = none →
    (runLines cfg f det s ls).output = ls.foldr (· ++ ·) [] ∧
    (runLines cfg f det s ls).state.pending = none ∧
    (runLines cfg f det s ls).state.changes = s.changes := by
  intro ls
  induction ls with
  | nil =>
    intro s _ _ hp
    rw [runLines_nil]
    exact ⟨rfl, hp, rfl⟩
  | cons l rest ih =>
    intro s hB hNL hp
    have hstep := process_line_no_pending cfg f s (splitEOL l det).1 (splitEOL l det).2 hp
    have hpend2 : (process_line cfg f s (splitEOL l det).1 (splitEOL l det).2).1.pending = none :=
      process_line_pending_none cfg f s _ _ (Or.inl hp) (hB l (List.mem_cons_self l rest))
    obtain ⟨ho, hpf, hcf⟩ := ih (process_line cfg f s (splitEOL l det).1 (splitEOL l det).2).1
      (fun l2 hl2 => hB l2 (List.mem_cons_of_mem l hl2))
      (fun l2 hl2 => hNL l2 (List.mem_cons_of_mem l hl2)) hpend2
    rw [runLines_cons]
    refine ⟨?_, hpf, by rw [hcf, hstep.2]⟩
    rw [hstep.1, ho]
    obtain ⟨b, hb⟩ := endsLF_decomp l (hNL l (List.mem_cons_self l rest))
    rw [hb, splitEOL_append_lf]
    simp [List.foldr_cons]

theorem runLines_spindle_off (cfg : BcssConfig) (f : ℚ → RpmOutcome) (det : List Char) :
    ∀ (ls : List (List Char)) (s : InjState),
    s.spindle_on = false → s.pending = none →
    (∀ l ∈ ls, (parse_line (splitEOL l det).1).has_m03 = false) →
    (∀ o ∈ (runLines cfg f det s ls).inserted, o = none) ∧
    (runLines cfg f det s ls).state.spindle_on = false ∧
    (runLines cfg f det s ls).state.pending = none ∧
    (runLines cfg f det s ls).state.changes = s.changes := by
  intro ls
  induction ls with
  | nil =>
    intro s hs hp _
    rw [runLines_nil]
    exact ⟨fun o ho => absurd ho (by simp [runLines_nil]), hs, hp, rfl⟩
  | cons l rest ih =>
    intro s hs hp hM
    have hstep := process_line_off cfg f s (splitEOL l det).1 (splitEOL l det).2 hs hp
      (hM l (List.mem_cons_self l rest))
    obtain ⟨hins, hsf, hpf, hcf⟩ := ih (process_line cfg f s (splitEOL l det).1 (splitEOL l det).2).1
      hstep.2.1 hstep.2.2.1
      (fun l2 hl2 => hM l2 (List.mem_cons_of_mem l hl2))
    rw [runLines_cons]
    refine ⟨?_, hsf, hpf, by rw [hcf, hstep.2.2.2]⟩
    intro o ho
    rcases List.mem_cons.mp ho with h | h
    · rw [h, hstep.1]
    · exact hins o h

theorem resolvePending_deadband_skip (cfg : BcssConfig) (f : ℚ → RpmOutcome)
    (s : InjState) (p : ParsedLine) (nl : List Char) (theta : ℚ)
    (hp : s.pending = some theta) (hsp : s.spindle_on = true) (hs : p.s_rpm = none)
    (hdb : should_insert cfg s.last_s (f theta).rpm_clamped = false) :
    (resolvePending cfg f s p nl).2 = none ∧
    (resolvePending cfg f s p nl).1.changes.skipped_deadband =
      s.changes.skipped_deadband + 1 ∧
    (resolvePending cfg f s p nl).1.last_s = s.last_s ∧
    (resolvePending cfg f s p nl).1.pending = none := by
  simp only [resolvePending, hp, hsp, hs]
  split_ifs <;> simp_all

theorem resolvePending_clamped_count (cfg : BcssConfig) (f : ℚ → RpmOutcome)
    (s : InjState) (p : ParsedLine) (nl : List Char) (theta : ℚ)
    (hp : s.pending = some theta) (hsp : s.spindle_on = true) (hs : p.s_rpm = none)
    (hcl : (f theta).clamped = true) :
    (resolvePending cfg f s p nl).1.changes.clamped_count =
      s.changes.clamped_count + 1 := by
  simp only [resolvePending, hp, hsp, hs, hcl]
  split_ifs <;> simp_all

theorem postprocess_rounded_above_max {K : Type} [LinearOrderedField K] [FloorRing K]
    (cfg : BcssConfig) (theta_used raw : K)
    (h : (postprocess cfg theta_used raw).rpm_rounded > cfg.s_max_rpm) :
    (postprocess cfg theta_used raw).rpm_clamped = cfg.s_max_rpm ∧
    (postprocess cfg theta_used raw).clamped = true := by
  simp only [postprocess] at h ⊢
  split_ifs <;> simp_all <;> omega

theorem finalize_none (s : InjState) (h : s.pending = none) : finalize s = s := by
  simp only [finalize, h]

/-! ## Claim theorems -/

/-- C10: starting from the initial injector state, after processing any
sequence of lines a non-empty pending slot implies the spindle-on flag is
true; hence a pending insertion is never seen with the spindle off (the
spec's discard-while-off branch is unreachable from the initial state). -/
theorem C10_injector_invariant (cfg : BcssConfig) (f : ℚ → RpmOutcome) (det : List Char)
    (ls : List (List Char)) :
    (runLines cfg f det initState ls).state.pending.isSome = true →
    (runLines cfg f det initState ls).state.spindle_on = true := by
  intro h
  rcases runLines_inv cfg f det ls initState (Or.inl rfl) with h1 | h1
  · rw [h1] at h; cases h
  · exact h1

theorem C10_witness :
    (runLines { invert_b_to_theta := false, theta_step_deg := 0 }
      (fun _ => ⟨0, 0, false⟩) ['\n'] initState
      ["M03".toList, "X0B10".toList]).state.pending.isSome = true ∧
    (runLines { invert_b_to_theta := false, theta_step_deg := 0 }
      (fun _ => ⟨0, 0, false⟩) ['\n'] initState
      ["M03".toList, "X0B10".toList]).state.spindle_on = true :=
  ⟨by decide,
   C10_injector_invariant { invert_b_to_theta := false, theta_step_deg := 0 }
     (fun _ => ⟨0, 0, false⟩) ['\n']
     ["M03".toList, "X0B10".toList] (by decide)⟩

/-- C9: if a pending insertion survives to end of input, `finalize`
discards it without emitting anything (it returns only a state, and
`process_file` writes no bytes after the loop), increments
`pending_at_eof` from 0 to 1, and leaves `inserted_s_lines` unchanged. -/
theorem C9_finalize_pending (s : InjState) (theta : ℚ)
    (hp : s.pending = some theta) (h0 : s.changes.pending_at_eof = 0) :
    (finalize s).changes.pending_at_eof = 1 ∧
    (finalize s).changes.inserted_s_lines = s.changes.inserted_s_lines ∧
    (finalize s).pending = none := by
  simp [finalize, hp, h0]

theorem C9_witness :
    (finalize { pending := some 13, spindle_on := true }).changes.pending_at_eof = 1 ∧
    (finalize { pending := some 13, spindle_on := true }).changes.inserted_s_lines =
      ({ pending := some 13, spindle_on := true } : InjState).changes.inserted_s_lines ∧
    (finalize { pending := some 13, spindle_on := true }).pending = none :=
  C9_finalize_pending { pending := some 13, spindle_on := true } 13 rfl rfl

/-- C8: when the line's B value converts and floor-quantizes to the very
step already recorded in `last_theta_quant`, processing the line leaves
no pending insertion behind (the second of two same-step B values never
schedules a second insertion), and the line adds at most one inserted
line (the resolution of the first value's pending slot). -/
theorem C8_quantization_idempotent (cfg : BcssConfig) (f : ℚ → RpmOutcome)
    (s : InjState) (raw nl : List Char) (b : ℚ)
    (hstep : 0 < cfg.theta_step_deg)
    (hinv : s.pending = none ∨ s.spindle_on = true)
    (hb : (parse_line raw).b_deg = some b)
    (hlast : s.last_theta_quant = some (quantize_theta cfg (convert_b cfg b))) :
    (process_line cfg f s raw nl).1.pending = none ∧
    (process_line cfg f s raw nl).1.changes.inserted_s_lines ≤
      s.changes.inserted_s_lines + 1 := by
  refine ⟨?_, process_line_inserted_le cfg f s raw nl⟩
  rw [process_line_fst]
  have hu : (adoptS (bumpOnLines (set_spindle_state
      (resolvePending cfg f (bumpTotal s) (parse_line raw) nl).1 (parse_line raw)))
      (parse_line raw)).last_theta_quant =
      some (quantize_theta cfg (convert_b cfg b)) := by
    rw [adoptS_last_theta, bumpOnLines_last_theta, set_spindle_state_last_theta,
      resolvePending_last_theta, bumpTotal_last_theta]
    exact hlast
  rw [scheduleB_same_quant cfg _ _ b hb hu, adoptS_pending, bumpOnLines_pending,
    set_spindle_state_pending]
  refine resolvePending_pending_out _ _ _ _ _ ?_
  rcases hinv with h | h
  · exact Or.inr (by rw [bumpTotal_pending]; exact h)
  · exact Or.inl (by rw [bumpTotal_spindle]; exact h)

theorem C8_witness :
    (process_line {} (fun _ => ⟨0, 0, false⟩)
      { spindle_on := true,
        last_theta_quant := some (quantize_theta ({} : BcssConfig)
          (convert_b ({} : BcssConfig) ((1 : ℚ) * decVal ['1', '0'] []))) }
      "X0B10".toList ['\n']).1.pending = none ∧
    (process_line {} (fun _ => ⟨0, 0, false⟩)
      { spindle_on := true,
        last_theta_quant := some (quantize_theta ({} : BcssConfig)
          (convert_b ({} : BcssConfig) ((1 : ℚ) * decVal ['1', '0'] []))) }
      "X0B10".toList ['\n']).1.changes.inserted_s_lines ≤
      ({ spindle_on := true,
         last_theta_quant := some (quantize_theta ({} : BcssConfig)
           (convert_b ({} : BcssConfig) ((1 : ℚ) * decVal ['1', '0'] []))) } :
        InjState).changes.inserted_s_lines + 1 :=
  C8_quantization_idempotent {} (fun _ => ⟨0, 0, false⟩)
    { spindle_on := true,
      last_theta_quant := some (quantize_theta ({} : BcssConfig)
        (convert_b ({} : BcssConfig) ((1 : ℚ) * decVal ['1', '0'] []))) }
    "X0B10".toList ['\n'] ((1 : ℚ) * decVal ['1', '0'] [])
    zero_lt_one (Or.inr rfl) rfl rfl

/-- C7: the deadband gate inserts unconditionally when no last speed is
recorded, otherwise exactly when the speed change reaches the deadband;
and a deadband-refused resolution inserts nothing, counts one deadband
skip, leaves the recorded last speed unchanged, and clears the pending
slot. -/
theorem C7_deadband_gate :
    (∀ (cfg : BcssConfig) (n : ℤ), should_insert cfg none n = true) ∧
    (∀ (cfg : BcssConfig) (l n : ℤ),
      should_insert cfg (some l) n = true ↔ cfg.deadband_rpm ≤ |n - l|) ∧
    (∀ (cfg : BcssConfig) (f : ℚ → RpmOutcome) (s : InjState) (p : ParsedLine)
      (nl : List Char) (theta : ℚ),
      s.pending = some theta → s.spindle_on = true → p.s_rpm = none →
      should_insert cfg s.last_s (f theta).rpm_clamped = false →
      (resolvePending cfg f s p nl).2 = none ∧
      (resolvePending cfg f s p nl).1.changes.skipped_deadband =
        s.changes.skipped_deadband + 1 ∧
      (resolvePending cfg f s p nl).1.last_s = s.last_s) :=
  ⟨fun _ _ => rfl,
   fun cfg l n => by simp [should_insert],
   fun cfg f s p nl theta hp hsp hs hdb =>
     ⟨(resolvePending_deadband_skip cfg f s p nl theta hp hsp hs hdb).1,
      (resolvePending_deadband_skip cfg f s p nl theta hp hsp hs hdb).2.1,
      (resolvePending_deadband_skip cfg f s p nl theta hp hsp hs hdb).2.2.1⟩⟩

theorem C7_witness :
    (resolvePending {} (fun _ => ⟨80, 8010, false⟩)
      { spindle_on := true, pending := some 80, last_s := some 8000 }
      (parse_line "G1X1".toList) ['\n']).2 = none ∧
    (resolvePending {} (fun _ => ⟨80, 8010, false⟩)
      { spindle_on := true, pending := some 80, last_s := some 8000 }
      (parse_line "G1X1".toList) ['\n']).1.changes.skipped_deadband =
      ({ spindle_on := true, pending := some 80, last_s := some 8000 } :
        InjState).changes.skipped_deadband + 1 ∧
    (resolvePending {} (fun _ => ⟨80, 8010, false⟩)
      { spindle_on := true, pending := some 80, last_s := some 8000 }
      (parse_line "G1X1".toList) ['\n']).1.last_s =
      ({ spindle_on := true, pending := some 80, last_s := some 8000 } :
        InjState).last_s :=
  C7_deadband_gate.2.2 {} (fun _ => ⟨80, 8010, false⟩)
    { spindle_on := true, pending := some 80, last_s := some 8000 }
    (parse_line "G1X1".toList) ['\n'] 80 rfl rfl (by decide) (by decide)

theorem postprocess_in_range {K : Type} [LinearOrderedField K] [FloorRing K]
    (cfg : BcssConfig) (theta_used raw : K)
    (h1 : ¬ ((postprocess cfg theta_used raw).rpm_rounded < cfg.s_min_rpm))
    (h2 : ¬ ((postprocess cfg theta_used raw).rpm_rounded > cfg.s_max_rpm)) :
    (postprocess cfg theta_used raw).rpm_clamped = (postprocess cfg theta_used raw).rpm_rounded ∧
    (postprocess cfg theta_used raw).clamped = false := by
  simp only [postprocess] at h1 h2 ⊢
  split_ifs <;> simp_all

theorem pyRound_eval_low {K : Type} [LinearOrderedField K] [FloorRing K]
    (x : K) (n : ℤ) (h1 : (n : K) ≤ x) (h2 : x < (n : K) + 1 / 2) :
    pyRound x = n := by
  have hfl : ⌊x⌋ = n := by
    rw [Int.floor_eq_iff]
    constructor
    · exact h1
    · refine lt_of_lt_of_le h2 ?_
      push_cast
      linarith
  simp only [pyRound, hfl]
  rw [if_pos (by linarith [h2])]

theorem pyRound_eval_high {K : Type} [LinearOrderedField K] [FloorRing K]
    (x : K) (n : ℤ) (h1 : (n : K) + 1 / 2 < x) (h2 : x < (n : K) + 1) :
    pyRound x = n + 1 := by
  have hfl : ⌊x⌋ = n := by
    rw [Int.floor_eq_iff]
    constructor
    · linarith
    · exact_mod_cast h2
  simp only [pyRound, hfl]
  rw [if_neg (by linarith), if_pos (by linarith)]

theorem pyRound_bounds {K : Type} [LinearOrderedField K] [FloorRing K]
    (x : K) (a b : ℤ) (h1 : (a : K) ≤ x) (h2 : x < (b : K)) :
    a ≤ pyRound x ∧ pyRound x ≤ b := by
  constructor
  · exact le_trans (Int.le_floor.mpr h1) (floor_le_pyRound x)
  · refine le_trans (pyRound_le_floor_add_one x) ?_
    have hb : ⌊x⌋ < b := Int.floor_lt.mpr h2
    omega

theorem postprocess_rounded_eq {K : Type} [LinearOrderedField K] [FloorRing K]
    (cfg : BcssConfig) (theta_used raw : K) :
    (postprocess cfg theta_used raw).rpm_rounded =
      pyRound (raw / ((max 1 cfg.s_round_unit_rpm : ℤ) : K)) *
        (max 1 cfg.s_round_unit_rpm) := rfl

/-- C6: a B-angle change occurring while the spindle is off never yields
an inserted S line: from any off-state with an empty pending slot (in
particular the initial state, and the state right after any line carrying
a spindle-stop token), processing any lines free of spindle-start tokens
emits no inserted line at all and stays off with an empty pending slot. -/
theorem C6_no_insertion_while_off :
    (∀ (cfg : BcssConfig) (f : ℚ → RpmOutcome) (det : List Char)
      (ls : List (List Char)) (s : InjState),
      s.spindle_on = false → s.pending = none →
      (∀ l ∈ ls, (parse_line (splitEOL l det).1).has_m03 = false) →
      (∀ o ∈ (runLines cfg f det s ls).inserted, o = none) ∧
      (runLines cfg f det s ls).state.spindle_on = false ∧
      (runLines cfg f det s ls).state.pending = none) ∧
    (initState.spindle_on = false ∧ initState.pending = none) ∧
    (∀ (cfg : BcssConfig) (f : ℚ → RpmOutcome) (s : InjState) (raw nl : List Char),
      (s.pending = none ∨ s.spindle_on = true) →
      (parse_line raw).has_m05 = true →
      (process_line cfg f s raw nl).1.spindle_on = false ∧
      (process_line cfg f s raw nl).1.pending = none) :=
  ⟨fun cfg f det ls s hs hp hM =>
     ⟨(runLines_spindle_off cfg f det ls s hs hp hM).1,
      (runLines_spindle_off cfg f det ls s hs hp hM).2.1,
      (runLines_spindle_off cfg f det ls s hs hp hM).2.2.1⟩,
   ⟨rfl, rfl⟩,
   fun cfg f s raw nl hinv hm5 => process_line_m05 cfg f s raw nl hinv hm5⟩

theorem C6_witness :
    (∀ o ∈ (runLines {} (fun _ => ⟨0, 0, false⟩) ['\n'] initState
      ["X0B14".toList, "G1X4".toList]).inserted, o = none) ∧
    (runLines {} (fun _ => ⟨0, 0, false⟩) ['\n'] initState
      ["X0B14".toList, "G1X4".toList]).state.spindle_on = false ∧
    (runLines {} (fun _ => ⟨0, 0, false⟩) ['\n'] initState
      ["X0B14".toList, "G1X4".toList]).state.pending = none :=
  C6_no_insertion_while_off.1 {} (fun _ => ⟨0, 0, false⟩) ['\n']
    ["X0B14".toList, "G1X4".toList] initState rfl rfl (by decide)

/-- C2 (amended): on an input file whose every line carries its own LF
terminator and contains no B-angle token, the conversion writes output
bytes identical to the input and reports zero inserted S lines. (For a
final line without a terminator the transducer appends the detected
file-level newline, so byte identity needs the terminator hypothesis —
see the counterexample.) -/
theorem C2_no_b_roundtrip (cfg : BcssConfig) (p1 p2 p3 now input : List Char)
    (hB : ∀ l ∈ splitLinesKeepEnds [] input,
      (parse_line (splitEOL l (detectNewline (input.take 65536))).1).b_deg = none)
    (hNL : ∀ l ∈ splitLinesKeepEnds [] input, endsLF l = true) :
    (process_file_model cfg p1 p2 p3 now input).1 = input ∧
    (process_file_model cfg p1 p2 p3 now input).2.changes.inserted_s_lines = 0 := by
  obtain ⟨ho, hp, hc⟩ := runLines_no_b cfg (modelOutcome cfg)
    (detectNewline (input.take 65536)) (splitLinesKeepEnds [] input) initState hB hNL rfl
  unfold process_file_model process_file
  dsimp only
  constructor
  · rw [ho, join_splitLines]
    rfl
  · rw [finalize_none _ hp, hc]
    rfl

/-- C2 counterexample: the input `G1X1` (no B token, final line without a
terminator) satisfies the claim's premise, yet the output is not
byte-identical to the input — the detected newline is appended. -/
theorem C2_counterexample :
    (∀ l ∈ splitLinesKeepEnds [] "G1X1".toList,
      (parse_line (splitEOL l (detectNewline ("G1X1".toList.take 65536))).1).b_deg = none) ∧
    (process_file_model {} [] [] [] [] "G1X1".toList).1 ≠ "G1X1".toList := by
  constructor
  · decide
  · decide

/-- C3 (amended): the conversion is a pure function of input bytes,
configuration and the clock reading taken for the report timestamp: the
output bytes do not depend on the clock at all, and two runs' reports
agree exactly when their timestamps do (they differ only in the
`processed_at` field). -/
theorem C3_determinism_amended (cfg : BcssConfig) (p1 p2 p3 t1 t2 input : List Char) :
    (process_file_model cfg p1 p2 p3 t1 input).1 =
      (process_file_model cfg p1 p2 p3 t2 input).1 ∧
    (process_file_model cfg p1 p2 p3 t1 input).2 =
      { (process_file_model cfg p1 p2 p3 t2 input).2 with processed_at := t1 } :=
  ⟨rfl, rfl⟩

/-- C3 counterexample: two runs on identical input bytes and identical
configuration, differing only in the clock reading recorded as
`processed_at`, produce identical output bytes but serialized report
files that are not byte-for-byte identical. -/
theorem C3_counterexample :
    (process_file_model {} [] [] [] "2026-01-01T00:00:00+09:00".toList "G1X1\n".toList).1 =
      (process_file_model {} [] [] [] "2026-01-02T00:00:00+09:00".toList "G1X1\n".toList).1 ∧
    jsonOfReport
        (process_file_model {} [] [] [] "2026-01-01T00:00:00+09:00".toList "G1X1\n".toList).2 ≠
      jsonOfReport
        (process_file_model {} [] [] [] "2026-01-02T00:00:00+09:00".toList "G1X1\n".toList).2 := by
  constructor
  · rfl
  · decide

/-- C4 (amended): whenever the ROUNDED speed exceeds the configured
maximum, the final clamped speed is exactly the maximum and the clamped
flag is set; a clamped decision consumed during pending resolution
increments the report's clamped count by one. (The claim as stated —
with the RAW speed above the maximum — fails when rounding pulls the
value back under a maximum that is not a multiple of the rounding unit;
see the counterexample.) -/
theorem C4_clamp_amended :
    (∀ (K : Type) [inst1 : LinearOrderedField K] [inst2 : FloorRing K]
      (cfg : BcssConfig) (theta_used raw : K),
      (postprocess cfg theta_used raw).rpm_rounded > cfg.s_max_rpm →
      (postprocess cfg theta_used raw).rpm_clamped = cfg.s_max_rpm ∧
      (postprocess cfg theta_used raw).clamped = true) ∧
    (∀ (cfg : BcssConfig) (f : ℚ → RpmOutcome) (s : InjState) (p : ParsedLine)
      (nl : List Char) (theta : ℚ),
      s.pending = some theta → s.spindle_on = true → p.s_rpm = none →
      (f theta).clamped = true →
      (resolvePending cfg f s p nl).1.changes.clamped_count =
        s.changes.clamped_count + 1) :=
  ⟨fun K _ _ cfg theta_used raw h => postprocess_rounded_above_max cfg theta_used raw h,
   fun cfg f s p nl theta hp hsp hs hcl =>
     resolvePending_clamped_count cfg f s p nl theta hp hsp hs hcl⟩

theorem C4_witness :
    ((postprocess ({} : BcssConfig) (5 : ℚ) 20008).rpm_clamped =
      ({} : BcssConfig).s_max_rpm ∧
     (postprocess ({} : BcssConfig) (5 : ℚ) 20008).clamped = true) ∧
    (resolvePending {} (fun _ => ⟨5, 99999, true⟩)
      { spindle_on := true, pending := some 5 }
      (parse_line "G1X1".toList) ['\n']).1.changes.clamped_count =
      ({ spindle_on := true, pending := some 5 } : InjState).changes.clamped_count + 1 := by
  constructor
  · have hr : (postprocess ({} : BcssConfig) (5 : ℚ) 20008).rpm_rounded = 20010 := by
      rw [postprocess_rounded_eq]
      have hm : (max 1 ({} : BcssConfig).s_round_unit_rpm) = (10 : ℤ) := by decide
      rw [hm]
      have hdiv : ((20008 : ℚ) / ((10 : ℤ) : ℚ)) = (20008 : ℚ) / 10 := by norm_num
      rw [hdiv, pyRound_eval_high ((20008 : ℚ) / 10) 2000 (by norm_num) (by norm_num)]
      decide
    exact C4_clamp_amended.1 ℚ ({} : BcssConfig) 5 20008 (by rw [hr]; decide)
  · exact C4_clamp_amended.2 {} (fun _ => ⟨5, 99999, true⟩)
      { spindle_on := true, pending := some 5 } (parse_line "G1X1".toList) ['\n'] 5
      rfl rfl (by decide) rfl

/-- C4 counterexample: with maximum speed 20003 and rounding unit 10, a
raw speed of 20004 exceeds the maximum, yet it rounds to 20000, which is
inside the clamp range: the final speed is 20000 (not the maximum) and
the clamped flag stays false, so no clamped count is recorded. -/
theorem C4_counterexample :
    ((20004 : ℚ) > ((cfgMax3.s_max_rpm : ℤ) : ℚ)) ∧
    ¬ ((postprocess cfgMax3 (5 : ℚ) 20004).rpm_clamped = cfgMax3.s_max_rpm ∧
       (postprocess cfgMax3 (5 : ℚ) 20004).clamped = true) := by
  constructor
  · show (20004 : ℚ) > ((20003 : ℤ) : ℚ)
    norm_num
  · have hr : (postprocess cfgMax3 (5 : ℚ) 20004).rpm_rounded = 20000 := by
      rw [postprocess_rounded_eq]
      have hm : (max 1 cfgMax3.s_round_unit_rpm) = (10 : ℤ) := by decide
      rw [hm]
      have hdiv : ((20004 : ℚ) / ((10 : ℤ) : ℚ)) = (20004 : ℚ) / 10 := by norm_num
      rw [hdiv, pyRound_eval_low ((20004 : ℚ) / 10) 2000 (by norm_num) (by norm_num)]
      decide
    have hnc := postprocess_in_range cfgMax3 (5 : ℚ) 20004
      (by rw [hr]; decide) (by rw [hr]; decide)
    rintro ⟨h1, h2⟩
    rw [hnc.2] at h2
    cases h2

/-! ## Real-analysis lemmas for the relative-mode RPM model -/

theorem sinGuard_eq_of_ge {x : ℝ} (h : (1 : ℝ) / 10 ^ 12 ≤ x) : sinGuard x = x := by
  have hx0 : (0 : ℝ) ≤ x := le_trans (by norm_num) h
  unfold sinGuard
  rw [abs_of_nonneg hx0, if_neg (not_lt.mpr h)]

theorem compute_s_relative (cfg : BcssConfig) (theta : ℚ) (hm : cfg.mode = Mode.relative) :
    compute_s_for_theta cfg theta = compute_mode_a_relative cfg theta := by
  unfold compute_s_for_theta
  rw [hm, if_neg (by simp)]

theorem compute_mode_a_eval (cfg : BcssConfig) (theta : ℚ)
    (hg : (1 : ℝ) / 10 ^ 12 ≤ Real.sin (radians (max theta cfg.theta_min_deg))) :
    compute_mode_a_relative cfg theta =
      postprocess cfg ((max theta cfg.theta_min_deg : ℚ) : ℝ)
        ((cfg.s_ref_rpm : ℝ) *
          (sin_ref cfg / Real.sin (radians (max theta cfg.theta_min_deg)))) := by
  show postprocess cfg ((max theta cfg.theta_min_deg : ℚ) : ℝ)
      ((cfg.s_ref_rpm : ℝ) *
        (sin_ref cfg / sinGuard (Real.sin (radians (max theta cfg.theta_min_deg))))) =
    postprocess cfg ((max theta cfg.theta_min_deg : ℚ) : ℝ)
      ((cfg.s_ref_rpm : ℝ) *
        (sin_ref cfg / Real.sin (radians (max theta cfg.theta_min_deg))))
  rw [sinGuard_eq_of_ge hg]

theorem sin_radians12_bounds :
    (20714 / 100000 : ℝ) < Real.sin (radians 12) ∧
    Real.sin (radians 12) < (20944 / 100000 : ℝ) := by
  have hpi1 : (3.141592 : ℝ) < Real.pi := Real.pi_gt_d6
  have hpi2 : Real.pi < (3.141593 : ℝ) := Real.pi_lt_d6
  have hx : radians 12 = 12 * Real.pi / 180 := by
    unfold radians; norm_num
  rw [hx]
  have ha : (3141592 / 15000000 : ℝ) < 12 * Real.pi / 180 := by linarith
  have hb : 12 * Real.pi / 180 < (3141593 / 15000000 : ℝ) := by linarith
  have h0 : (0 : ℝ) < 12 * Real.pi / 180 := by linarith
  have h1 : 12 * Real.pi / 180 ≤ 1 := by linarith
  have hcube := Real.sin_gt_sub_cube h0 h1
  have hx3 : (12 * Real.pi / 180) ^ 3 < (3141593 / 15000000 : ℝ) ^ 3 :=
    pow_lt_pow_left₀ hb (le_of_lt h0) (by norm_num)
  have hb3 : ((3141593 / 15000000 : ℝ)) ^ 3 < (91871 / 10000000 : ℝ) := by norm_num
  constructor
  · linarith
  · have hs := Real.sin_lt h0
    linarith

theorem sin_radians13_bounds :
    (22397 / 100000 : ℝ) < Real.sin (radians 13) ∧
    Real.sin (radians 13) < (22690 / 100000 : ℝ) := by
  have hpi1 : (3.141592 : ℝ) < Real.pi := Real.pi_gt_d6
  have hpi2 : Real.pi < (3.141593 : ℝ) := Real.pi_lt_d6
  have hx : radians 13 = 13 * Real.pi / 180 := by
    unfold radians; norm_num
  rw [hx]
  have ha : (40840696 / 180000000 : ℝ) < 13 * Real.pi / 180 := by linarith
  have hb : 13 * Real.pi / 180 < (40840709 / 180000000 : ℝ) := by linarith
  have h0 : (0 : ℝ) < 13 * Real.pi / 180 := by linarith
  have h1 : 13 * Real.pi / 180 ≤ 1 := by linarith
  have hcube := Real.sin_gt_sub_cube h0 h1
  have hx3 : (13 * Real.pi / 180) ^ 3 < (40840709 / 180000000 : ℝ) ^ 3 :=
    pow_lt_pow_left₀ hb (le_of_lt h0) (by norm_num)
  have hb3 : ((40840709 / 180000000 : ℝ)) ^ 3 < (11681 / 1000000 : ℝ) := by norm_num
  constructor
  · linarith
  · have hs := Real.sin_lt h0
    linarith

/-- C1 (amended): the cached baseline sine is the sine of the converted
baseline angle itself — the safety minimum is NOT applied to it (it is
applied only to the per-computation angle); every relative-mode
computation uses the cached sine as the numerator factor over the guarded
sine of the floored target angle. -/
theorem C1_sin_ref_amended (cfg : BcssConfig) (theta : ℚ) :
    sin_ref cfg = Real.sin (radians (theta_ref_used cfg)) ∧
    (compute_mode_a_relative cfg theta).rpm_raw =
      (cfg.s_ref_rpm : ℝ) *
        (sin_ref cfg / sinGuard (Real.sin (radians (max theta cfg.theta_min_deg)))) :=
  ⟨rfl, rfl⟩

/-- C1 counterexample: with baseline angle 0 (inversion off) and minimum
safety angle 1, the code caches sin(0 deg) = 0, whereas the claim's
floored reference angle would give sin(1 deg) > 0 — so the reference
angle is not floored to the safety minimum before its sine is taken. -/
theorem C1_counterexample :
    sin_ref cfgRefZero ≠
      Real.sin (radians (max (theta_ref_used cfgRefZero) cfgRefZero.theta_min_deg)) := by
  have h1 : theta_ref_used cfgRefZero = 0 := rfl
  have h2 : max (theta_ref_used cfgRefZero) cfgRefZero.theta_min_deg = 1 := by
    rw [h1]
    show max (0 : ℚ) 1 = 1
    norm_num
  have h3 : sin_ref cfgRefZero = 0 := by
    unfold sin_ref
    rw [h1]
    unfold radians
    rw [show ((0 : ℚ) : ℝ) * Real.pi / 180 = 0 by norm_num, Real.sin_zero]
  rw [h3, h2]
  have h4 : radians 1 = Real.pi / 180 := by
    unfold radians; norm_num
  rw [h4]
  have h5 : 0 < Real.sin (Real.pi / 180) := by
    apply Real.sin_pos_of_pos_of_lt_pi
    · positivity
    · exact div_lt_self Real.pi_pos (by norm_num)
  exact ne_of_lt h5

theorem modelOutcome_cfgC5_12 : modelOutcome cfgC5 12 = ⟨12, 8000, false⟩ := by
  have hmax : (max (12 : ℚ) cfgC5.theta_min_deg) = 12 := by
    show max (12 : ℚ) 1 = 12
    norm_num
  have hs12 := sin_radians12_bounds
  have hg : (1 : ℝ) / 10 ^ 12 ≤ Real.sin (radians (max (12 : ℚ) cfgC5.theta_min_deg)) := by
    rw [hmax]
    linarith [hs12.1]
  have href : sin_ref cfgC5 = Real.sin (radians 12) := rfl
  have hsne : Real.sin (radians 12) ≠ 0 :=
    ne_of_gt (lt_trans (by norm_num) hs12.1)
  have hraw : (cfgC5.s_ref_rpm : ℝ) *
      (sin_ref cfgC5 / Real.sin (radians (max (12 : ℚ) cfgC5.theta_min_deg))) = 8000 := by
    rw [hmax, href, div_self hsne]
    norm_num [cfgC5]
  have hr : (postprocess cfgC5 (((max (12 : ℚ) cfgC5.theta_min_deg : ℚ)) : ℝ)
      ((cfgC5.s_ref_rpm : ℝ) *
        (sin_ref cfgC5 / Real.sin (radians (max (12 : ℚ) cfgC5.theta_min_deg))))).rpm_rounded =
      8000 := by
    rw [postprocess_rounded_eq, hraw]
    have hm10 : (max 1 cfgC5.s_round_unit_rpm) = (10 : ℤ) := by decide
    rw [hm10]
    have hdiv : ((8000 : ℝ) / ((10 : ℤ) : ℝ)) = ((800 : ℤ) : ℝ) := by norm_num
    rw [hdiv, pyRound_intCast]
    decide
  have hin := postprocess_in_range cfgC5 (((max (12 : ℚ) cfgC5.theta_min_deg : ℚ)) : ℝ)
    ((cfgC5.s_ref_rpm : ℝ) *
      (sin_ref cfgC5 / Real.sin (radians (max (12 : ℚ) cfgC5.theta_min_deg))))
    (by rw [hr]; decide) (by rw [hr]; decide)
  have e1 : (modelOutcome cfgC5 12).theta_used_deg = 12 := by
    show max (12 : ℚ) cfgC5.theta_min_deg = 12
    exact hmax
  have e2 : (modelOutcome cfgC5 12).rpm_clamped = 8000 := by
    show (compute_s_for_theta cfgC5 12).rpm_clamped = 8000
    rw [compute_s_relative cfgC5 12 rfl, compute_mode_a_eval cfgC5 12 hg, hin.1, hr]
  have e3 : (modelOutcome cfgC5 12).clamped = false := by
    show (compute_s_for_theta cfgC5 12).clamped = false
    rw [compute_s_relative cfgC5 12 rfl, compute_mode_a_eval cfgC5 12 hg, hin.2]
  have heta : modelOutcome cfgC5 12 = ⟨(modelOutcome cfgC5 12).theta_used_deg,
      (modelOutcome cfgC5 12).rpm_clamped, (modelOutcome cfgC5 12).clamped⟩ := rfl
  rw [heta, e1, e2, e3]

theorem modelOutcome_cfgC5_13 :
    ∃ v : ℤ, modelOutcome cfgC5 13 = ⟨13, v, false⟩ ∧ 7300 ≤ v ∧ v ≤ 7490 := by
  have hmax : (max (13 : ℚ) cfgC5.theta_min_deg) = 13 := by
    show max (13 : ℚ) 1 = 13
    norm_num
  have hs12 := sin_radians12_bounds
  have hs13 := sin_radians13_bounds
  have h13pos : (0 : ℝ) < Real.sin (radians 13) := by linarith [hs13.1]
  have hg : (1 : ℝ) / 10 ^ 12 ≤ Real.sin (radians (max (13 : ℚ) cfgC5.theta_min_deg)) := by
    rw [hmax]
    linarith [hs13.1]
  have href : sin_ref cfgC5 = Real.sin (radians 12) := rfl
  have hraw_lb : (7303 : ℝ) ≤ (cfgC5.s_ref_rpm : ℝ) *
      (sin_ref cfgC5 / Real.sin (radians (max (13 : ℚ) cfgC5.theta_min_deg))) := by
    rw [hmax, href]
    have hcross : (7303 : ℝ) * Real.sin (radians 13) ≤ 8000 * Real.sin (radians 12) := by
      linarith [hs12.1, hs13.2]
    have hcast : (cfgC5.s_ref_rpm : ℝ) = 8000 := by norm_num [cfgC5]
    rw [hcast, ← mul_div_assoc, le_div_iff h13pos]
    linarith [hcross]
  have hraw_ub : (cfgC5.s_ref_rpm : ℝ) *
      (sin_ref cfgC5 / Real.sin (radians (max (13 : ℚ) cfgC5.theta_min_deg))) < (7486 : ℝ) := by
    rw [hmax, href]
    have hcross : (8000 : ℝ) * Real.sin (radians 12) < 7486 * Real.sin (radians 13) := by
      linarith [hs12.2, hs13.1]
    have hcast : (cfgC5.s_ref_rpm : ℝ) = 8000 := by norm_num [cfgC5]
    rw [hcast, ← mul_div_assoc, div_lt_iff h13pos]
    linarith [hcross]
  set raw : ℝ := (cfgC5.s_ref_rpm : ℝ) *
      (sin_ref cfgC5 / Real.sin (radians (max (13 : ℚ) cfgC5.theta_min_deg))) with hraw_def
  have hm10 : (max 1 cfgC5.s_round_unit_rpm) = (10 : ℤ) := by decide
  have hdivb : ((730 : ℤ) : ℝ) ≤ raw / ((10 : ℤ) : ℝ) ∧
      raw / ((10 : ℤ) : ℝ) < ((749 : ℤ) : ℝ) := by
    constructor
    · push_cast
      linarith [hraw_lb]
    · push_cast
      linarith [hraw_ub]
  have hpr := pyRound_bounds (raw / ((10 : ℤ) : ℝ)) 730 749 hdivb.1 hdivb.2
  have hr : (postprocess cfgC5 (((max (13 : ℚ) cfgC5.theta_min_deg : ℚ)) : ℝ) raw).rpm_rounded =
      pyRound (raw / ((10 : ℤ) : ℝ)) * 10 := by
    rw [postprocess_rounded_eq, hm10]
  have hvb : 7300 ≤ pyRound (raw / ((10 : ℤ) : ℝ)) * 10 ∧
      pyRound (raw / ((10 : ℤ) : ℝ)) * 10 ≤ 7490 := by
    constructor <;> [nlinarith [hpr.1]; nlinarith [hpr.2]]
  have hin := postprocess_in_range cfgC5 (((max (13 : ℚ) cfgC5.theta_min_deg : ℚ)) : ℝ) raw
    (by rw [hr]; show ¬ (pyRound (raw / ((10 : ℤ) : ℝ)) * 10 < 1000); omega)
    (by rw [hr]; show ¬ (pyRound (raw / ((10 : ℤ) : ℝ)) * 10 > 20000); omega)
  refine ⟨pyRound (raw / ((10 : ℤ) : ℝ)) * 10, ?_, hvb.1, hvb.2⟩
  have e1 : (modelOutcome cfgC5 13).theta_used_deg = 13 := by
    show max (13 : ℚ) cfgC5.theta_min_deg = 13
    exact hmax
  have e2 : (modelOutcome cfgC5 13).rpm_clamped = pyRound (raw / ((10 : ℤ) : ℝ)) * 10 := by
    show (compute_s_for_theta cfgC5 13).rpm_clamped = pyRound (raw / ((10 : ℤ) : ℝ)) * 10
    rw [compute_s_relative cfgC5 13 rfl, compute_mode_a_eval cfgC5 13 hg, ← hraw_def, hin.1, hr]
  have e3 : (modelOutcome cfgC5 13).clamped = false := by
    show (compute_s_for_theta cfgC5 13).clamped = false
    rw [compute_s_relative cfgC5 13 rfl, compute_mode_a_eval cfgC5 13 hg, ← hraw_def, hin.2]
  have heta : modelOutcome cfgC5 13 = ⟨(modelOutcome cfgC5 13).theta_used_deg,
      (modelOutcome cfgC5 13).rpm_clamped, (modelOutcome cfgC5 13).clamped⟩ := rfl
  rw [heta, e1, e2, e3]

/-- C2 witness: the two-line no-B input consisting of `G1X1` with an LF
terminator round-trips byte-identically with zero inserted lines. -/
theorem C2_witness :
    (process_file_model {} [] [] [] [] "G1X1\n".toList).1 = "G1X1\n".toList ∧
    (process_file_model {} [] [] [] [] "G1X1\n".toList).2.changes.inserted_s_lines = 0 :=
  C2_no_b_roundtrip {} [] [] [] [] "G1X1\n".toList (by decide) (by decide)

set_option maxHeartbeats 8000000 in
/-- C5: on the ten-line relative-mode scenario (reference angle 12 deg at
8000 rpm, step 1 deg, minimum 1 deg, rounding 10, deadband 50, clamp
1000..20000, inversion off), the conversion inserts exactly one S line,
immediately before the line `G1X3`, and the report counts one inserted
line. The first B change (12.3 deg) resolves into a deadband skip, the
second (12.8 deg) floors to the same step 12 and schedules nothing, and
only the third (13.1 deg, flooring to 13) yields the insertion. -/
theorem C5_concrete_scenario :
    ∃ v : ℤ, 7300 ≤ v ∧ v ≤ 7490 ∧
      (process_file_model cfgC5 [] [] [] [] inputC5).1 =
        ("G97S8000M03\nX0Y0B12.3\nG1X1\nX0Y0B12.8\nG1X2\nX0Y0B13.1\n".toList ++
          ('S' :: (toString v).toList ++ ['\n']) ++
          "G1X3\nM05\nX0Y0B14.0\nG1X4\n".toList) ∧
      (runLines cfgC5 (modelOutcome cfgC5) ['\n'] initState
          (splitLinesKeepEnds [] inputC5)).inserted =
        [none, none, none, none, none, none,
          some ('S' :: (toString v).toList ++ ['\n']), none, none, none] ∧
      (process_file_model cfgC5 [] [] [] [] inputC5).2.changes.inserted_s_lines = 1 := by
  obtain ⟨v, hMv, hv1, hv2⟩ := modelOutcome_cfgC5_13
  -- parse lemmas for the B lines
  have hp2 : parse_line "X0Y0B12.3".toList = ⟨false, false, some ((123 : ℚ)/10), none⟩ := by
    have h3 : (parse_line "X0Y0B12.3".toList).b_deg = some ((123 : ℚ)/10) := by
      show some ((1 : ℚ) * decVal ['1', '2'] ['3']) = some ((123 : ℚ)/10)
      have d1 : digitsVal ['1', '2'] = 12 := by decide
      have d2 : digitsVal ['3'] = 3 := by decide
      unfold decVal
      rw [d1, d2]
      norm_num
    have heta : parse_line "X0Y0B12.3".toList = ⟨(parse_line "X0Y0B12.3".toList).has_m03,
        (parse_line "X0Y0B12.3".toList).has_m05, (parse_line "X0Y0B12.3".toList).b_deg,
        (parse_line "X0Y0B12.3".toList).s_rpm⟩ := rfl
    rw [heta, h3, show (parse_line "X0Y0B12.3".toList).has_m03 = false from by decide,
      show (parse_line "X0Y0B12.3".toList).has_m05 = false from by decide,
      show (parse_line "X0Y0B12.3".toList).s_rpm = none from by decide]
  have hp4 : parse_line "X0Y0B12.8".toList = ⟨false, false, some ((128 : ℚ)/10), none⟩ := by
    have h3 : (parse_line "X0Y0B12.8".toList).b_deg = some ((128 : ℚ)/10) := by
      show some ((1 : ℚ) * decVal ['1', '2'] ['8']) = some ((128 : ℚ)/10)
      have d1 : digitsVal ['1', '2'] = 12 := by decide
      have d2 : digitsVal ['8'] = 8 := by decide
      unfold decVal
      rw [d1, d2]
      norm_num
    have heta : parse_line "X0Y0B12.8".toList = ⟨(parse_line "X0Y0B12.8".toList).has_m03,
        (parse_line "X0Y0B12.8".toList).has_m05, (parse_line "X0Y0B12.8".toList).b_deg,
        (parse_line "X0Y0B12.8".toList).s_rpm⟩ := rfl
    rw [heta, h3, show (parse_line "X0Y0B12.8".toList).has_m03 = false from by decide,
      show (parse_line "X0Y0B12.8".toList).has_m05 = false from by decide,
      show (parse_line "X0Y0B12.8".toList).s_rpm = none from by decide]
  have hp6 : parse_line "X0Y0B13.1".toList = ⟨false, false, some ((131 : ℚ)/10), none⟩ := by
    have h3 : (parse_line "X0Y0B13.1".toList).b_deg = some ((131 : ℚ)/10) := by
      show some ((1 : ℚ) * decVal ['1', '3'] ['1']) = some ((131 : ℚ)/10)
      have d1 : digitsVal ['1', '3'] = 13 := by decide
      have d2 : digitsVal ['1'] = 1 := by decide
      unfold decVal
      rw [d1, d2]
      norm_num
    have heta : parse_line "X0Y0B13.1".toList = ⟨(parse_line "X0Y0B13.1".toList).has_m03,
        (parse_line "X0Y0B13.1".toList).has_m05, (parse_line "X0Y0B13.1".toList).b_deg,
        (parse_line "X0Y0B13.1".toList).s_rpm⟩ := rfl
    rw [heta, h3, show (parse_line "X0Y0B13.1".toList).has_m03 = false from by decide,
      show (parse_line "X0Y0B13.1".toList).has_m05 = false from by decide,
      show (parse_line "X0Y0B13.1".toList).s_rpm = none from by decide]
  -- quantization values
  have hq123 : quantize_theta cfgC5 (convert_b cfgC5 ((123 : ℚ)/10)) = 12 := by
    show quantize_theta cfgC5 ((123 : ℚ)/10) = 12
    unfold quantize_theta floor_step
    rw [if_neg (by decide)]
    show (⌊(123 : ℚ)/10 / 1⌋ : ℚ) * 1 = 12
    norm_num
  have hq128 : quantize_theta cfgC5 (convert_b cfgC5 ((128 : ℚ)/10)) = 12 := by
    show quantize_theta cfgC5 ((128 : ℚ)/10) = 12
    unfold quantize_theta floor_step
    rw [if_neg (by decide)]
    show (⌊(128 : ℚ)/10 / 1⌋ : ℚ) * 1 = 12
    norm_num
  have hq131 : quantize_theta cfgC5 (convert_b cfgC5 ((131 : ℚ)/10)) = 13 := by
    show quantize_theta cfgC5 ((131 : ℚ)/10) = 13
    unfold quantize_theta floor_step
    rw [if_neg (by decide)]
    show (⌊(131 : ℚ)/10 / 1⌋ : ℚ) * 1 = 13
    norm_num
  -- step lemmas
  have e1 : process_line cfgC5 (modelOutcome cfgC5) initState "G97S8000M03".toList ['\n'] =
      (⟨true, none, none, some 8000, ⟨1, 0, 1⟩, ⟨0, 0, 0, 0, 0, 0⟩,
        ⟨some 8000, some 8000⟩⟩, none) := by decide
  have e2 : process_line cfgC5 (modelOutcome cfgC5)
      ⟨true, none, none, some 8000, ⟨1, 0, 1⟩, ⟨0, 0, 0, 0, 0, 0⟩, ⟨some 8000, some 8000⟩⟩
      "X0Y0B12.3".toList ['\n'] =
      (⟨true, some 12, some 12, some 8000, ⟨2, 1, 2⟩, ⟨0, 0, 0, 0, 0, 0⟩,
        ⟨some 8000, some 8000⟩⟩, none) := by
    have hres : resolvePending cfgC5 (modelOutcome cfgC5)
        (bumpTotal ⟨true, none, none, some 8000, ⟨1, 0, 1⟩, ⟨0, 0, 0, 0, 0, 0⟩,
          ⟨some 8000, some 8000⟩⟩) (parse_line "X0Y0B12.3".toList) ['\n'] =
        (bumpTotal ⟨true, none, none, some 8000, ⟨1, 0, 1⟩, ⟨0, 0, 0, 0, 0, 0⟩,
          ⟨some 8000, some 8000⟩⟩, none) :=
      resolvePending_none _ _ _ _ _ rfl
    refine Prod.ext ?_ ?_
    · rw [process_line_fst, hres, hp2]
      simp only [scheduleB]
      rw [hq123]
      decide
    · rw [process_line_snd, hres]
  have e3 : process_line cfgC5 (modelOutcome cfgC5)
      ⟨true, some 12, some 12, some 8000, ⟨2, 1, 2⟩, ⟨0, 0, 0, 0, 0, 0⟩,
        ⟨some 8000, some 8000⟩⟩ "G1X1".toList ['\n'] =
      (⟨true, some 12, none, some 8000, ⟨3, 1, 3⟩, ⟨0, 0, 1, 0, 0, 0⟩,
        ⟨some 8000, some 8000⟩⟩, none) := by
    have hres : resolvePending cfgC5 (modelOutcome cfgC5)
        (bumpTotal ⟨true, some 12, some 12, some 8000, ⟨2, 1, 2⟩, ⟨0, 0, 0, 0, 0, 0⟩,
          ⟨some 8000, some 8000⟩⟩) (parse_line "G1X1".toList) ['\n'] =
        (⟨true, some 12, none, some 8000, ⟨3, 1, 2⟩, ⟨0, 0, 1, 0, 0, 0⟩,
          ⟨some 8000, some 8000⟩⟩, none) := by
      simp only [resolvePending, bumpTotal]
      rw [show parse_line "G1X1".toList = ⟨false, false, none, none⟩ from by decide]
      rw [modelOutcome_cfgC5_12]
      decide
    refine Prod.ext ?_ ?_
    · rw [process_line_fst, hres]
      decide
    · rw [process_line_snd, hres]
  have e4 : process_line cfgC5 (modelOutcome cfgC5)
      ⟨true, some 12, none, some 8000, ⟨3, 1, 3⟩, ⟨0, 0, 1, 0, 0, 0⟩,
        ⟨some 8000, some 8000⟩⟩ "X0Y0B12.8".toList ['\n'] =
      (⟨true, some 12, none, some 8000, ⟨4, 2, 4⟩, ⟨0, 0, 1, 0, 0, 0⟩,
        ⟨some 8000, some 8000⟩⟩, none) := by
    have hres : resolvePending cfgC5 (modelOutcome cfgC5)
        (bumpTotal ⟨true, some 12, none, some 8000, ⟨3, 1, 3⟩, ⟨0, 0, 1, 0, 0, 0⟩,
          ⟨some 8000, some 8000⟩⟩) (parse_line "X0Y0B12.8".toList) ['\n'] =
        (bumpTotal ⟨true, some 12, none, some 8000, ⟨3, 1, 3⟩, ⟨0, 0, 1, 0, 0, 0⟩,
          ⟨some 8000, some 8000⟩⟩, none) :=
      resolvePending_none _ _ _ _ _ rfl
    refine Prod.ext ?_ ?_
    · rw [process_line_fst, hres, hp4]
      simp only [scheduleB]
      rw [hq128]
      decide
    · rw [process_line_snd, hres]
  have e5 : process_line cfgC5 (modelOutcome cfgC5)
      ⟨true, some 12, none, some 8000, ⟨4, 2, 4⟩, ⟨0, 0, 1, 0, 0, 0⟩,
        ⟨some 8000, some 8000⟩⟩ "G1X2".toList ['\n'] =
      (⟨true, some 12, none, some 8000, ⟨5, 2, 5⟩, ⟨0, 0, 1, 0, 0, 0⟩,
        ⟨some 8000, some 8000⟩⟩, none) := by decide
  have e6 : process_line cfgC5 (modelOutcome cfgC5)
      ⟨true, some 12, none, some 8000, ⟨5, 2, 5⟩, ⟨0, 0, 1, 0, 0, 0⟩,
        ⟨some 8000, some 8000⟩⟩ "X0Y0B13.1".toList ['\n'] =
      (⟨true, some 13, some 13, some 8000, ⟨6, 3, 6⟩, ⟨0, 0, 1, 0, 0, 0⟩,
        ⟨some 8000, some 8000⟩⟩, none) := by
    have hres : resolvePending cfgC5 (modelOutcome cfgC5)
        (bumpTotal ⟨true, some 12, none, some 8000, ⟨5, 2, 5⟩, ⟨0, 0, 1, 0, 0, 0⟩,
          ⟨some 8000, some 8000⟩⟩) (parse_line "X0Y0B13.1".toList) ['\n'] =
        (bumpTotal ⟨true, some 12, none, some 8000, ⟨5, 2, 5⟩, ⟨0, 0, 1, 0, 0, 0⟩,
          ⟨some 8000, some 8000⟩⟩, none) :=
      resolvePending_none _ _ _ _ _ rfl
    refine Prod.ext ?_ ?_
    · rw [process_line_fst, hres, hp6]
      simp only [scheduleB]
      rw [hq131]
      decide
    · rw [process_line_snd, hres]
  have e7 : process_line cfgC5 (modelOutcome cfgC5)
      ⟨true, some 13, some 13, some 8000, ⟨6, 3, 6⟩, ⟨0, 0, 1, 0, 0, 0⟩,
        ⟨some 8000, some 8000⟩⟩ "G1X3".toList ['\n'] =
      (⟨true, some 13, none, some v, ⟨7, 3, 7⟩, ⟨1, 0, 1, 0, 0, 0⟩,
        ⟨some v, some 8000⟩⟩, some ('S' :: (toString v).toList ++ ['\n'])) := by
    have hsi : should_insert cfgC5 (some (8000 : ℤ)) v = true := by
      simp only [should_insert, decide_eq_true_eq]
      have habs : |v - 8000| = 8000 - v := by
        rw [abs_of_nonpos (by omega)]
        ring
      rw [habs]
      show (50 : ℤ) ≤ 8000 - v
      omega
    have hupd : SRange.update ⟨some 8000, some 8000⟩ v = ⟨some v, some 8000⟩ := by
      simp only [SRange.update]
      rw [if_pos (by omega : v < 8000)]
      rw [if_neg (by omega : ¬ (v > 8000))]
    have hres : resolvePending cfgC5 (modelOutcome cfgC5)
        (bumpTotal ⟨true, some 13, some 13, some 8000, ⟨6, 3, 6⟩, ⟨0, 0, 1, 0, 0, 0⟩,
          ⟨some 8000, some 8000⟩⟩) (parse_line "G1X3".toList) ['\n'] =
        (⟨true, some 13, none, some v, ⟨7, 3, 6⟩, ⟨1, 0, 1, 0, 0, 0⟩,
          ⟨some v, some 8000⟩⟩, some ('S' :: (toString v).toList ++ ['\n'])) := by
      simp only [resolvePending, bumpTotal]
      rw [show parse_line "G1X3".toList = ⟨false, false, none, none⟩ from by decide]
      rw [hMv]
      simp only [Option.isSome_none, lt_self_iff_false, if_false, Bool.false_eq_true, hsi,
        hupd, if_true]
    refine Prod.ext ?_ ?_
    · rw [process_line_fst, hres]
      rfl
    · rw [process_line_snd, hres]
  have e8 : process_line cfgC5 (modelOutcome cfgC5)
      ⟨true, some 13, none, some v, ⟨7, 3, 7⟩, ⟨1, 0, 1, 0, 0, 0⟩, ⟨some v, some 8000⟩⟩
      "M05".toList ['\n'] =
      (⟨false, some 13, none, none, ⟨8, 3, 7⟩, ⟨1, 0, 1, 0, 0, 0⟩,
        ⟨some v, some 8000⟩⟩, none) := rfl
  have e9 : process_line cfgC5 (modelOutcome cfgC5)
      ⟨false, some 13, none, none, ⟨8, 3, 7⟩, ⟨1, 0, 1, 0, 0, 0⟩, ⟨some v, some 8000⟩⟩
      "X0Y0B14.0".toList ['\n'] =
      (⟨false, some 13, none, none, ⟨9, 3, 7⟩, ⟨1, 0, 1, 0, 0, 0⟩,
        ⟨some v, some 8000⟩⟩, none) := rfl
  have e10 : process_line cfgC5 (modelOutcome cfgC5)
      ⟨false, some 13, none, none, ⟨9, 3, 7⟩, ⟨1, 0, 1, 0, 0, 0⟩, ⟨some v, some 8000⟩⟩
      "G1X4".toList ['\n'] =
      (⟨false, some 13, none, none, ⟨10, 3, 7⟩, ⟨1, 0, 1, 0, 0, 0⟩,
        ⟨some v, some 8000⟩⟩, none) := rfl
  have e1a : (process_line cfgC5 (modelOutcome cfgC5)
      initState
      "G97S8000M03".toList ['\n']).1 =
      ⟨true, none, none, some 8000, ⟨1, 0, 1⟩, ⟨0, 0, 0, 0, 0, 0⟩, ⟨some 8000, some 8000⟩⟩ := by
    rw [e1]
  have e1b : (process_line cfgC5 (modelOutcome cfgC5)
      initState
      "G97S8000M03".toList ['\n']).2 = none := by
    rw [e1]
  have e2a : (process_line cfgC5 (modelOutcome cfgC5)
      ⟨true, none, none, some 8000, ⟨1, 0, 1⟩, ⟨0, 0, 0, 0, 0, 0⟩, ⟨some 8000, some 8000⟩⟩
      "X0Y0B12.3".toList ['\n']).1 =
      ⟨true, some 12, some 12, some 8000, ⟨2, 1, 2⟩, ⟨0, 0, 0, 0, 0, 0⟩, ⟨some 8000, some 8000⟩⟩ := by
    rw [e2]
  have e2b : (process_line cfgC5 (modelOutcome cfgC5)
      ⟨true, none, none, some 8000, ⟨1, 0, 1⟩, ⟨0, 0, 0, 0, 0, 0⟩, ⟨some 8000, some 8000⟩⟩
      "X0Y0B12.3".toList ['\n']).2 = none := by
    rw [e2]
  have e3a : (process_line cfgC5 (modelOutcome cfgC5)
      ⟨true, some 12, some 12, some 8000, ⟨2, 1, 2⟩, ⟨0, 0, 0, 0, 0, 0⟩, ⟨some 8000, some 8000⟩⟩
      "G1X1".toList ['\n']).1 =
      ⟨true, some 12, none, some 8000, ⟨3, 1, 3⟩, ⟨0, 0, 1, 0, 0, 0⟩, ⟨some 8000, some 8000⟩⟩ := by
    rw [e3]
  have e3b : (process_line cfgC5 (modelOutcome cfgC5)
      ⟨true, some 12, some 12, some 8000, ⟨2, 1, 2⟩, ⟨0, 0, 0, 0, 0, 0⟩, ⟨some 8000, some 8000⟩⟩
      "G1X1".toList ['\n']).2 = none := by
    rw [e3]
  have e4a : (process_line cfgC5 (modelOutcome cfgC5)
      ⟨true, some 12, none, some 8000, ⟨3, 1, 3⟩, ⟨0, 0, 1, 0, 0, 0⟩, ⟨some 8000, some 8000⟩⟩
      "X0Y0B12.8".toList ['\n']).1 =
      ⟨true, some 12, none, some 8000, ⟨4, 2, 4⟩, ⟨0, 0, 1, 0, 0, 0⟩, ⟨some 8000, some 8000⟩⟩ := by
    rw [e4]
  have e4b : (process_line cfgC5 (modelOutcome cfgC5)
      ⟨true, some 12, none, some 8000, ⟨3, 1, 3⟩, ⟨0, 0, 1, 0, 0, 0⟩, ⟨some 8000, some 8000⟩⟩
      "X0Y0B12.8".toList ['\n']).2 = none := by
    rw [e4]
  have e5a : (process_line cfgC5 (modelOutcome cfgC5)
      ⟨true, some 12, none, some 8000, ⟨4, 2, 4⟩, ⟨0, 0, 1, 0, 0, 0⟩, ⟨some 8000, some 8000⟩⟩
      "G1X2".toList ['\n']).1 =
      ⟨true, some 12, none, some 8000, ⟨5, 2, 5⟩, ⟨0, 0, 1, 0, 0, 0⟩, ⟨some 8000, some 8000⟩⟩ := by
    rw [e5]
  have e5b : (process_line cfgC5 (modelOutcome cfgC5)
      ⟨true, some 12, none, some 8000, ⟨4, 2, 4⟩, ⟨0, 0, 1, 0, 0, 0⟩, ⟨some 8000, some 8000⟩⟩
      "G1X2".toList ['\n']).2 = none := by
    rw [e5]
  have e6a : (process_line cfgC5 (modelOutcome cfgC5)
      ⟨true, some 12, none, some 8000, ⟨5, 2, 5⟩, ⟨0, 0, 1, 0, 0, 0⟩, ⟨some 8000, some 8000⟩⟩
      "X0Y0B13.1".toList ['\n']).1 =
      ⟨true, some 13, some 13, some 8000, ⟨6, 3, 6⟩, ⟨0, 0, 1, 0, 0, 0⟩, ⟨some 8000, some 8000⟩⟩ := by
    rw [e6]
  have e6b : (process_line cfgC5 (modelOutcome cfgC5)
      ⟨true, some 12, none, some 8000, ⟨5, 2, 5⟩, ⟨0, 0, 1, 0, 0, 0⟩, ⟨some 8000, some 8000⟩⟩
      "X0Y0B13.1".toList ['\n']).2 = none := by
    rw [e6]
  have e7a : (process_line cfgC5 (modelOutcome cfgC5)
      ⟨true, some 13, some 13, some 8000, ⟨6, 3, 6⟩, ⟨0, 0, 1, 0, 0, 0⟩, ⟨some 8000, some 8000⟩⟩
      "G1X3".toList ['\n']).1 =
      ⟨true, some 13, none, some v, ⟨7, 3, 7⟩, ⟨1, 0, 1, 0, 0, 0⟩, ⟨some v, some 8000⟩⟩ := by
    rw [e7]
  have e7b : (process_line cfgC5 (modelOutcome cfgC5)
      ⟨true, some 13, some 13, some 8000, ⟨6, 3, 6⟩, ⟨0, 0, 1, 0, 0, 0⟩, ⟨some 8000, some 8000⟩⟩
      "G1X3".toList ['\n']).2 = some ('S' :: (toString v).toList ++ ['\n']) := by
    rw [e7]
  have e8a : (process_line cfgC5 (modelOutcome cfgC5)
      ⟨true, some 13, none, some v, ⟨7, 3, 7⟩, ⟨1, 0, 1, 0, 0, 0⟩, ⟨some v, some 8000⟩⟩
      "M05".toList ['\n']).1 =
      ⟨false, some 13, none, none, ⟨8, 3, 7⟩, ⟨1, 0, 1, 0, 0, 0⟩, ⟨some v, some 8000⟩⟩ := by
    rw [e8]
  have e8b : (process_line cfgC5 (modelOutcome cfgC5)
      ⟨true, some 13, none, some v, ⟨7, 3, 7⟩, ⟨1, 0, 1, 0, 0, 0⟩, ⟨some v, some 8000⟩⟩
      "M05".toList ['\n']).2 = none := by
    rw [e8]
  have e9a : (process_line cfgC5 (modelOutcome cfgC5)
      ⟨false, some 13, none, none, ⟨8, 3, 7⟩, ⟨1, 0, 1, 0, 0, 0⟩, ⟨some v, some 8000⟩⟩
      "X0Y0B14.0".toList ['\n']).1 =
      ⟨false, some 13, none, none, ⟨9, 3, 7⟩, ⟨1, 0, 1, 0, 0, 0⟩, ⟨some v, some 8000⟩⟩ := by
    rw [e9]
  have e9b : (process_line cfgC5 (modelOutcome cfgC5)
      ⟨false, some 13, none, none, ⟨8, 3, 7⟩, ⟨1, 0, 1, 0, 0, 0⟩, ⟨some v, some 8000⟩⟩
      "X0Y0B14.0".toList ['\n']).2 = none := by
    rw [e9]
  have e10a : (process_line cfgC5 (modelOutcome cfgC5)
      ⟨false, some 13, none, none, ⟨9, 3, 7⟩, ⟨1, 0, 1, 0, 0, 0⟩, ⟨some v, some 8000⟩⟩
      "G1X4".toList ['\n']).1 =
      ⟨false, some 13, none, none, ⟨10, 3, 7⟩, ⟨1, 0, 1, 0, 0, 0⟩, ⟨some v, some 8000⟩⟩ := by
    rw [e10]
  have e10b : (process_line cfgC5 (modelOutcome cfgC5)
      ⟨false, some 13, none, none, ⟨9, 3, 7⟩, ⟨1, 0, 1, 0, 0, 0⟩, ⟨some v, some 8000⟩⟩
      "G1X4".toList ['\n']).2 = none := by
    rw [e10]
  have hsplit : splitLinesKeepEnds [] inputC5 = ["G97S8000M03\n".toList, "X0Y0B12.3\n".toList, "G1X1\n".toList, "X0Y0B12.8\n".toList, "G1X2\n".toList, "X0Y0B13.1\n".toList, "G1X3\n".toList, "M05\n".toList, "X0Y0B14.0\n".toList, "G1X4\n".toList] := by decide
  have hdet : detectNewline (inputC5.take 65536) = ['\n'] := by decide
  have hrun : runLines cfgC5 (modelOutcome cfgC5) ['\n'] initState
      ["G97S8000M03\n".toList, "X0Y0B12.3\n".toList, "G1X1\n".toList, "X0Y0B12.8\n".toList, "G1X2\n".toList, "X0Y0B13.1\n".toList, "G1X3\n".toList, "M05\n".toList, "X0Y0B14.0\n".toList, "G1X4\n".toList] =
      ⟨⟨false, some 13, none, none, ⟨10, 3, 7⟩, ⟨1, 0, 1, 0, 0, 0⟩, ⟨some v, some 8000⟩⟩,
       ("G97S8000M03\nX0Y0B12.3\nG1X1\nX0Y0B12.8\nG1X2\nX0Y0B13.1\n".toList ++
         ('S' :: (toString v).toList ++ ['\n']) ++
         "G1X3\nM05\nX0Y0B14.0\nG1X4\n".toList),
       [none, none, none, none, none, none,
         some ('S' :: (toString v).toList ++ ['\n']), none, none, none]⟩ := by
    rw [runLines_cons,
      (show (splitEOL "G97S8000M03\n".toList ['\n']).1 = "G97S8000M03".toList from by decide),
      (show (splitEOL "G97S8000M03\n".toList ['\n']).2 = ['\n'] from by decide),
      e1a,
      e1b,
      runLines_cons,
      (show (splitEOL "X0Y0B12.3\n".toList ['\n']).1 = "X0Y0B12.3".toList from by decide),
      (show (splitEOL "X0Y0B12.3\n".toList ['\n']).2 = ['\n'] from by decide),
      e2a,
      e2b,
      runLines_cons,
      (show (splitEOL "G1X1\n".toList ['\n']).1 = "G1X1".toList from by decide),
      (show (splitEOL "G1X1\n".toList ['\n']).2 = ['\n'] from by decide),
      e3a,
      e3b,
      runLines_cons,
      (show (splitEOL "X0Y0B12.8\n".toList ['\n']).1 = "X0Y0B12.8".toList from by decide),
      (show (splitEOL "X0Y0B12.8\n".toList ['\n']).2 = ['\n'] from by decide),
      e4a,
      e4b,
      runLines_cons,
      (show (splitEOL "G1X2\n".toList ['\n']).1 = "G1X2".toList from by decide),
      (show (splitEOL "G1X2\n".toList ['\n']).2 = ['\n'] from by decide),
      e5a,
      e5b,
      runLines_cons,
      (show (splitEOL "X0Y0B13.1\n".toList ['\n']).1 = "X0Y0B13.1".toList from by decide),
      (show (splitEOL "X0Y0B13.1\n".toList ['\n']).2 = ['\n'] from by decide),
      e6a,
      e6b,
      runLines_cons,
      (show (splitEOL "G1X3\n".toList ['\n']).1 = "G1X3".toList from by decide),
      (show (splitEOL "G1X3\n".toList ['\n']).2 = ['\n'] from by decide),
      e7a,
      e7b,
      runLines_cons,
      (show (splitEOL "M05\n".toList ['\n']).1 = "M05".toList from by decide),
      (show (splitEOL "M05\n".toList ['\n']).2 = ['\n'] from by decide),
      e8a,
      e8b,
      runLines_cons,
      (show (splitEOL "X0Y0B14.0\n".toList ['\n']).1 = "X0Y0B14.0".toList from by decide),
      (show (splitEOL "X0Y0B14.0\n".toList ['\n']).2 = ['\n'] from by decide),
      e9a,
      e9b,
      runLines_cons,
      (show (splitEOL "G1X4\n".toList ['\n']).1 = "G1X4".toList from by decide),
      (show (splitEOL "G1X4\n".toList ['\n']).2 = ['\n'] from by decide),
      e10a,
      e10b,
      runLines_nil]
    simp only [RunResult.mk.injEq]
    refine ⟨trivial, ?_, trivial⟩
    rw [show ("G97S8000M03\nX0Y0B12.3\nG1X1\nX0Y0B12.8\nG1X2\nX0Y0B13.1\n" : String).toList =
        "G97S8000M03".toList ++ '\n' :: ("X0Y0B12.3".toList ++ '\n' :: ("G1X1".toList ++
          '\n' :: ("X0Y0B12.8".toList ++ '\n' :: ("G1X2".toList ++
          '\n' :: ("X0Y0B13.1".toList ++ ['\n']))))) from by decide,
      show ("G1X3\nM05\nX0Y0B14.0\nG1X4\n" : String).toList =
        "G1X3".toList ++ '\n' :: ("M05".toList ++ '\n' :: ("X0Y0B14.0".toList ++
          '\n' :: ("G1X4".toList ++ ['\n']))) from by decide]
    simp only [Option.getD_none, Option.getD_some, List.nil_append, List.cons_append,
      List.append_assoc, List.singleton_append]
  refine ⟨v, hv1, hv2, ?_, ?_, ?_⟩
  · show (process_file cfgC5 (modelOutcome cfgC5) [] [] [] [] inputC5).1 = _
    unfold process_file
    dsimp only
    rw [hdet, hsplit, hrun]
  · rw [hsplit, hrun]
  · show (process_file cfgC5 (modelOutcome cfgC5) [] [] [] []
      inputC5).2.changes.inserted_s_lines = 1
    unfold process_file
    dsimp only
    rw [hdet, hsplit, hrun]
    rfl

end NcBcss
